import Mathlib

/-!
Shallow embedding of the go-grpc-prometheus fork (package grpc_prometheus):
src/client_metrics.go and the server metrics file (src/unnamed/part_000).

Modelling conventions:
  * Prometheus counter vectors are association lists from a typed label tuple
    to a natural-number value.  In the Go code label values are the string
    renderings of these components (string(grpcType), code.String()); the
    renderings are injective, so the typed tuples are used directly as keys.
  * Histogram vectors carry their construction options and an association
    list from label tuple to the number of observations made on that child
    series; the observed values themselves (wall-clock durations, byte
    sizes) belong to the external prometheus store and are not modelled.
  * A nil Go pointer to a histogram vector is `none`; `Describe`/`Collect`
    return `none` exactly when the Go code would dereference a nil
    histogram pointer.
  * The call reporter files (client_reporter.go / server_reporter.go) and
    util.go of this repository are not under src/; the definitions taken
    from them are modelled from the specification and marked as such.
-/

set_option linter.unusedVariables false
set_option linter.unnecessarySeqFocus false

/-- gRPC status codes (external package google.golang.org/grpc/codes). -/
inductive Code
  | OK
  | Canceled
  | Unknown
  | InvalidArgument
  | DeadlineExceeded
  | NotFound
  | AlreadyExists
  | PermissionDenied
  | ResourceExhausted
  | FailedPrecondition
  | Aborted
  | OutOfRange
  | Unimplemented
  | Internal
  | Unavailable
  | DataLoss
  | Unauthenticated
  deriving DecidableEq, Repr

/-- Modelled from the spec: `allCodes` (util.go, not under src/) enumerates
every known status code in the taxonomy, used by pre-registration. -/
def allCodes : List Code :=
  [Code.OK, Code.Canceled, Code.Unknown, Code.InvalidArgument,
   Code.DeadlineExceeded, Code.NotFound, Code.AlreadyExists,
   Code.PermissionDenied, Code.ResourceExhausted, Code.FailedPrecondition,
   Code.Aborted, Code.OutOfRange, Code.Unimplemented, Code.Internal,
   Code.Unavailable, Code.DataLoss, Code.Unauthenticated]

/-- The call-shape taxonomy (`grpcType` in util.go; its values are the label
strings "unary", "client_stream", "server_stream", "bidi_stream"). -/
inductive grpcType
  | Unary
  | ClientStream
  | ServerStream
  | BidiStream
  deriving DecidableEq, Repr

/-- A Go error value as seen by the interceptors: `none` is a nil error;
`GoErr.eof` is io.EOF; `GoErr.statusErr c` is an error carrying a gRPC
status with code `c`; `GoErr.plain` is any other error (no status). -/
inductive GoErr
  | eof
  | statusErr (c : Code)
  | plain
  deriving DecidableEq, Repr

/-- External package google.golang.org/grpc/status: `st, _ :=
status.FromError(err); st.Code()`.  A nil error yields OK, an error
carrying a status yields its code, any other error yields Unknown. -/
def status_Code : Option GoErr → Code
  | none => Code.OK
  | some (GoErr.statusErr c) => c
  | some _ => Code.Unknown

/-- External package google.golang.org/grpc: the (deprecated) `grpc.Code`
helper used by the server interceptors; same mapping as `status_Code`. -/
def grpc_Code : Option GoErr → Code
  | none => Code.OK
  | some (GoErr.statusErr c) => c
  | some _ => Code.Unknown

/-- A prometheus metric-vector child table: association list from a label
tuple to the child's value (counter value, or observation count for a
histogram child).  Children are created lazily and never removed. -/
abbrev CVec (α : Type) := List (α × Nat)

/-- Value of the child at key `k` (0 when the child does not exist:
a counter that was never touched reads as zero). -/
def lookupVal {α : Type} [DecidableEq α] : CVec α → α → Nat
  | [], _ => 0
  | p :: rest, k => if k = p.1 then p.2 else lookupVal rest k

/-- Whether a child series for key `k` exists in the table. -/
def hasKey {α : Type} [DecidableEq α] : CVec α → α → Bool
  | [], _ => false
  | p :: rest, k => if k = p.1 then true else hasKey rest k

/-- `WithLabelValues(...).Inc()`: increment the child at `k`, creating it
(at value 1) if absent. -/
def incAt {α : Type} [DecidableEq α] : CVec α → α → CVec α
  | [], k => [(k, 1)]
  | p :: rest, k => if k = p.1 then (p.1, p.2 + 1) :: rest else p :: incAt rest k

/-- `GetMetricWithLabelValues(...)`: reference the child at `k` without
incrementing, creating a zero-valued child if absent. -/
def getOrCreate {α : Type} [DecidableEq α] : CVec α → α → CVec α
  | [], k => [(k, 0)]
  | p :: rest, k => if k = p.1 then p :: rest else p :: getOrCreate rest k

theorem lookupVal_incAt {α : Type} [DecidableEq α] (v : CVec α) (k k' : α) :
    lookupVal (incAt v k) k' = lookupVal v k' + (if k' = k then 1 else 0) := by
  induction v with
  | nil =>
    by_cases h : k' = k <;> simp [incAt, lookupVal, h]
  | cons p rest ih =>
    by_cases h : k = p.1
    · by_cases h' : k' = p.1
      · have hk : k' = k := h'.trans h.symm
        simp [incAt, lookupVal, h, h', hk]
      · have hk : ¬ k' = k := fun e => h' (e.trans h)
        simp [incAt, lookupVal, h, h', hk]
    · have hp : ¬ p.1 = k := fun e => h e.symm
      by_cases h' : k' = p.1
      · have hk : ¬ k' = k := fun e => h (e.symm.trans h')
        simp [incAt, lookupVal, h, h', hk, hp]
      · simp [incAt, lookupVal, h, h', hp, ih]

theorem lookupVal_getOrCreate {α : Type} [DecidableEq α] (v : CVec α) (k k' : α) :
    lookupVal (getOrCreate v k) k' = lookupVal v k' := by
  induction v with
  | nil =>
    by_cases h : k' = k <;> simp [getOrCreate, lookupVal, h]
  | cons p rest ih =>
    by_cases h : k = p.1
    · simp [getOrCreate, lookupVal, h]
    · by_cases h' : k' = p.1 <;> simp [getOrCreate, lookupVal, h, h', ih]

theorem hasKey_getOrCreate {α : Type} [DecidableEq α] (v : CVec α) (k k' : α) :
    hasKey (getOrCreate v k) k' = (hasKey v k' || decide (k' = k)) := by
  induction v with
  | nil =>
    by_cases h : k' = k <;> simp [getOrCreate, hasKey, h]
  | cons p rest ih =>
    by_cases h : k = p.1
    · by_cases h' : k' = p.1
      · simp [getOrCreate, hasKey, h, h']
      · have hk : ¬ k' = k := fun e => h' (e.trans h)
        simp [getOrCreate, hasKey, h, h', hk]
    · by_cases h' : k' = p.1 <;> simp [getOrCreate, hasKey, h, h', ih]

theorem getOrCreate_of_hasKey {α : Type} [DecidableEq α] (v : CVec α) (k : α)
    (h : hasKey v k = true) : getOrCreate v k = v := by
  induction v with
  | nil => simp [hasKey] at h
  | cons p rest ih =>
    by_cases hk : k = p.1
    · simp [getOrCreate, hk]
    · simp [hasKey, hk] at h
      simp [getOrCreate, hk, ih h]

theorem hasKey_incAt {α : Type} [DecidableEq α] (v : CVec α) (k k' : α) :
    hasKey (incAt v k) k' = (hasKey v k' || decide (k' = k)) := by
  induction v with
  | nil =>
    by_cases h : k' = k <;> simp [incAt, hasKey, h]
  | cons p rest ih =>
    by_cases h : k = p.1
    · by_cases h' : k' = p.1
      · simp [incAt, hasKey, h, h']
      · have hk : ¬ k' = k := fun e => h' (e.trans h)
        simp [incAt, hasKey, h, h', hk]
    · by_cases h' : k' = p.1 <;> simp [incAt, hasKey, h, h', ih]

/-- Label tuple `(grpc_type, grpc_service, grpc_method)`. -/
abbrev Labels3 := grpcType × String × String

/-- Label tuple `(grpc_type, grpc_service, grpc_method, grpc_code)`. -/
abbrev Labels4 := grpcType × String × String × Code

/-- A prometheus series descriptor (prom.Desc): fully-qualified family
name, help string and the variable label names. -/
structure Desc where
  fqName : String
  help : String
  variableLabels : List String
  deriving DecidableEq, Repr

/-- One entry of a Collect run: the descriptor of the family whose vector
was traversed, and the number of child-series snapshots sent to the
channel (the snapshot payloads belong to the external store). -/
structure MetricFamily where
  desc : Desc
  childCount : Nat
  deriving DecidableEq, Repr

/-- prom.CounterOpts, restricted to the fields the embedded code reads. -/
structure CounterOpts where
  name : String
  help : String
  deriving DecidableEq, Repr

/-- prom.HistogramOpts, restricted to the fields the embedded code reads;
bucket bounds are rationals (exact stand-ins for the Go float64 bounds;
no arithmetic is ever performed on them). -/
structure HistogramOpts where
  name : String
  help : String
  buckets : List Rat
  deriving DecidableEq, Repr

/-- prom.DefBuckets = .005, .01, .025, .05, .1, .25, .5, 1, 2.5, 5, 10. -/
def DefBuckets : List Rat :=
  [5/1000, 1/100, 25/1000, 5/100, 1/10, 1/4, 1/2, 1, 5/2, 5, 10]

/-- Modelled from the spec: the default message-size bucket list
`defMsgBytesBuckets` (declared outside src/); its concrete bounds are not
given by the spec and never inspected by the embedded code. -/
def defMsgBytesBuckets : List Rat := [1, 1024, 1048576]

/-- `HistogramOption` (func(*prom.HistogramOpts)), as a pure update. -/
def HistogramOption : Type := HistogramOpts → HistogramOpts

/-- WithHistogramBuckets: replace the bucket list (part_000 lines 60-62). -/
def WithHistogramBuckets (buckets : List Rat) : HistogramOption :=
  fun o => { o with buckets := buckets }

/-- Application of a variadic `opts ...HistogramOption` list, as done by the
`for _, o := range opts { o(&opts) }` loops of the Enable functions. -/
def applyHistogramOptions (opts : List HistogramOption) (o : HistogramOpts) : HistogramOpts :=
  opts.foldl (fun acc f => f acc) o

/-- Modelled from the spec: `CounterOption` (util.go, not under src/), a
pure update of counter construction options. -/
def CounterOption : Type := CounterOpts → CounterOpts

/-- Modelled from the spec: application of variadic counter options
(`counterOptions(...).apply`, util.go). -/
def applyCounterOptions (opts : List CounterOption) (o : CounterOpts) : CounterOpts :=
  opts.foldl (fun acc f => f acc) o

/-- prom.CounterVec: construction options plus the child table. -/
structure CounterVec (α : Type) where
  opts : CounterOpts
  labelNames : List String
  series : CVec α
  deriving DecidableEq, Repr

/-- prom.NewCounterVec. -/
def NewCounterVec {α : Type} (opts : CounterOpts) (labelNames : List String) : CounterVec α :=
  ⟨opts, labelNames, []⟩

/-- CounterVec.Describe sends the single family descriptor. -/
def CounterVec.describe {α : Type} (v : CounterVec α) : List Desc :=
  [⟨v.opts.name, v.opts.help, v.labelNames⟩]

/-- CounterVec.Collect sends one snapshot per child series. -/
def CounterVec.collect {α : Type} (v : CounterVec α) : List MetricFamily :=
  [⟨⟨v.opts.name, v.opts.help, v.labelNames⟩, v.series.length⟩]

/-- prom.HistogramVec: construction options plus the child table mapping a
label tuple to its observation count. -/
structure HistogramVec (α : Type) where
  opts : HistogramOpts
  labelNames : List String
  series : CVec α
  deriving DecidableEq, Repr

/-- prom.NewHistogramVec. -/
def NewHistogramVec {α : Type} (opts : HistogramOpts) (labelNames : List String) : HistogramVec α :=
  ⟨opts, labelNames, []⟩

/-- WithLabelValues(...).Observe(v): one more observation on the child. -/
def HistogramVec.observe {α : Type} [DecidableEq α] (h : HistogramVec α) (k : α) : HistogramVec α :=
  { h with series := incAt h.series k }

/-- HistogramVec.Describe sends the single family descriptor. -/
def HistogramVec.describe {α : Type} (v : HistogramVec α) : List Desc :=
  [⟨v.opts.name, v.opts.help, v.labelNames⟩]

/-- HistogramVec.Collect sends one snapshot per child series. -/
def HistogramVec.collect {α : Type} (v : HistogramVec α) : List MetricFamily :=
  [⟨⟨v.opts.name, v.opts.help, v.labelNames⟩, v.series.length⟩]

/-- Observation count of child `k` of an optional (possibly nil) histogram
vector; a missing vector or child counts as zero observations. -/
def obsCount {α : Type} [DecidableEq α] (o : Option (HistogramVec α)) (k : α) : Nat :=
  match o with
  | none => 0
  | some h => lookupVal h.series k

/-- Whether child `k` exists in an optional histogram vector. -/
def histHasKey {α : Type} [DecidableEq α] (o : Option (HistogramVec α)) (k : α) : Bool :=
  match o with
  | none => false
  | some h => hasKey h.series k

/-- ServerMetrics (part_000 lines 11-19). -/
structure ServerMetrics where
  serverStartedCounter : CounterVec Labels3
  serverHandledCounter : CounterVec Labels4
  serverStreamMsgReceived : CounterVec Labels3
  serverStreamMsgSent : CounterVec Labels3
  serverHandledHistogramEnabled : Bool
  serverHandledHistogramOpts : HistogramOpts
  serverHandledHistogram : Option (HistogramVec Labels3)
  deriving DecidableEq, Repr

/-- NewServerMetrics (part_000 lines 25-55). -/
def NewServerMetrics : ServerMetrics where
  serverStartedCounter := NewCounterVec
    ⟨"grpc_server_started_total",
     "Total number of RPCs started on the server."⟩
    ["grpc_type", "grpc_service", "grpc_method"]
  serverHandledCounter := NewCounterVec
    ⟨"grpc_server_handled_total",
     "Total number of RPCs completed on the server, regardless of success or failure."⟩
    ["grpc_type", "grpc_service", "grpc_method", "grpc_code"]
  serverStreamMsgReceived := NewCounterVec
    ⟨"grpc_server_msg_received_total",
     "Total number of RPC stream messages received on the server."⟩
    ["grpc_type", "grpc_service", "grpc_method"]
  serverStreamMsgSent := NewCounterVec
    ⟨"grpc_server_msg_sent_total",
     "Total number of gRPC stream messages sent by the server."⟩
    ["grpc_type", "grpc_service", "grpc_method"]
  serverHandledHistogramEnabled := false
  serverHandledHistogramOpts :=
    ⟨"grpc_server_handling_seconds",
     "Histogram of response latency (seconds) of gRPC that had been application-level handled by the server.",
     DefBuckets⟩
  serverHandledHistogram := none

/-- EnableHandlingTimeHistogram (part_000 lines 68-79): apply the options to
the stored opts, create the vector from the updated opts if not yet
enabled, then set the enabled flag. -/
def ServerMetrics.EnableHandlingTimeHistogram (m : ServerMetrics)
    (opts : List HistogramOption) : ServerMetrics :=
  let m := { m with serverHandledHistogramOpts :=
    applyHistogramOptions opts m.serverHandledHistogramOpts }
  let m := if !m.serverHandledHistogramEnabled then
      { m with serverHandledHistogram := some (NewHistogramVec
          m.serverHandledHistogramOpts
          ["grpc_type", "grpc_service", "grpc_method"]) }
    else m
  { m with serverHandledHistogramEnabled := true }

/-- ServerMetrics.Describe (part_000 lines 84-92); `none` stands for the
nil-pointer dereference that occurs when the histogram is enabled but the
vector was never assigned. -/
def ServerMetrics.Describe (m : ServerMetrics) : Option (List Desc) :=
  let base := m.serverStartedCounter.describe ++ m.serverHandledCounter.describe ++
    m.serverStreamMsgReceived.describe ++ m.serverStreamMsgSent.describe
  if m.serverHandledHistogramEnabled then
    match m.serverHandledHistogram with
    | some h => some (base ++ h.describe)
    | none => none
  else
    some base

/-- ServerMetrics.Collect (part_000 lines 97-105). -/
def ServerMetrics.Collect (m : ServerMetrics) : Option (List MetricFamily) :=
  let base := m.serverStartedCounter.collect ++ m.serverHandledCounter.collect ++
    m.serverStreamMsgReceived.collect ++ m.serverStreamMsgSent.collect
  if m.serverHandledHistogramEnabled then
    match m.serverHandledHistogram with
    | some h => some (base ++ h.collect)
    | none => none
  else
    some base

/-- Modelled from the spec: the server call reporter (server_reporter.go,
not under src/) is bound to the label tuple (call shape, service, method);
the full method string of the framework is split into service and method
before the reporter is built, so the two components are carried directly. -/
structure serverReporter where
  rpcType : grpcType
  serviceName : String
  methodName : String
  deriving DecidableEq, Repr

def serverReporter.labels3 (r : serverReporter) : Labels3 :=
  (r.rpcType, r.serviceName, r.methodName)

/-- Modelled from the spec: `newServerReporter` increments the "started"
counter for the call's label tuple on creation (and starts the handling
timer, whose value is recorded by `Handled` when the histogram is
enabled). -/
def newServerReporter (m : ServerMetrics) (t : grpcType) (svc meth : String) :
    serverReporter × ServerMetrics :=
  let r : serverReporter := ⟨t, svc, meth⟩
  (r, { m with serverStartedCounter := { m.serverStartedCounter with
        series := incAt m.serverStartedCounter.series r.labels3 } })

/-- Modelled from the spec: `ReceivedMessage` increments "messages
received" for the reporter's tuple. -/
def serverReporter.ReceivedMessage (r : serverReporter) (m : ServerMetrics) : ServerMetrics :=
  { m with serverStreamMsgReceived := { m.serverStreamMsgReceived with
      series := incAt m.serverStreamMsgReceived.series r.labels3 } }

/-- Modelled from the spec: `SentMessage` increments "messages sent" for
the reporter's tuple. -/
def serverReporter.SentMessage (r : serverReporter) (m : ServerMetrics) : ServerMetrics :=
  { m with serverStreamMsgSent := { m.serverStreamMsgSent with
      series := incAt m.serverStreamMsgSent.series r.labels3 } }

/-- Modelled from the spec: the terminal `Handled(code)` increments the
"handled" counter for (shape, service, method, code) and, when the
handling-time histogram is enabled, observes the elapsed time on it (a nil
vector is left untouched; that state is unreachable, see the histogram
flag invariant). -/
def serverReporter.Handled (r : serverReporter) (code : Code) (m : ServerMetrics) : ServerMetrics :=
  let m := { m with serverHandledCounter := { m.serverHandledCounter with
    series := incAt m.serverHandledCounter.series (r.rpcType, r.serviceName, r.methodName, code) } }
  { m with serverHandledHistogram :=
      if m.serverHandledHistogramEnabled then
        m.serverHandledHistogram.map (fun h => h.observe r.labels3)
      else m.serverHandledHistogram }

/-- UnaryServerInterceptor (part_000 lines 108-119), applied to one call.
The opaque handler outcome `(resp, handlerErr)` is an input; the
interceptor returns the updated metrics together with the handler's
result and error, both unmodified. -/
def ServerMetrics.UnaryServerInterceptor {α : Type} (m : ServerMetrics)
    (svc meth : String) (resp : α) (handlerErr : Option GoErr) :
    ServerMetrics × α × Option GoErr :=
  let (monitor, m) := newServerReporter m grpcType.Unary svc meth
  let m := monitor.ReceivedMessage m
  let err := handlerErr
  let m := monitor.Handled (grpc_Code err) m
  let m := if err = none then monitor.SentMessage m else m
  (m, resp, err)

/-- grpc.StreamServerInfo, restricted to the fields the embedded code
reads (the FullMethod string is carried as its split service/method pair
by the reporter construction). -/
structure StreamServerInfo where
  IsClientStream : Bool
  IsServerStream : Bool
  deriving DecidableEq, Repr

/-- streamRpcType (part_000 lines 164-171). -/
def streamRpcType (info : StreamServerInfo) : grpcType :=
  if info.IsClientStream && !info.IsServerStream then
    grpcType.ClientStream
  else if !info.IsClientStream && info.IsServerStream then
    grpcType.ServerStream
  else
    grpcType.BidiStream

/-- One interaction of the wrapped handler (or client application) with a
decorated stream: a SendMsg or RecvMsg call together with the result the
underlying (undecorated) stream returns for it. -/
inductive StreamEvent
  | sendMsg (result : Option GoErr)
  | recvMsg (result : Option GoErr)
  deriving DecidableEq, Repr

/-- monitoredServerStream.SendMsg (part_000 lines 179-185): perform the
underlying send and increment "sent" only on success; the error is
returned unchanged. -/
def monitoredServerStream.SendMsg (monitor : serverReporter) (m : ServerMetrics)
    (err : Option GoErr) : ServerMetrics × Option GoErr :=
  (if err = none then monitor.SentMessage m else m, err)

/-- monitoredServerStream.RecvMsg (part_000 lines 187-193). -/
def monitoredServerStream.RecvMsg (monitor : serverReporter) (m : ServerMetrics)
    (err : Option GoErr) : ServerMetrics × Option GoErr :=
  (if err = none then monitor.ReceivedMessage m else m, err)

/-- Effect of one stream interaction of the wrapped server handler. -/
def serverStreamStep (monitor : serverReporter) (m : ServerMetrics) :
    StreamEvent → ServerMetrics
  | StreamEvent.sendMsg e => (monitoredServerStream.SendMsg monitor m e).1
  | StreamEvent.recvMsg e => (monitoredServerStream.RecvMsg monitor m e).1

/-- The sequence of stream interactions the wrapped handler performs on a
decorated server stream during a streaming call. -/
def runServerStream (monitor : serverReporter) (m : ServerMetrics)
    (evs : List StreamEvent) : ServerMetrics :=
  evs.foldl (serverStreamStep monitor) m

/-- StreamServerInterceptor (part_000 lines 122-129), applied to one call:
create a reporter for the derived shape, run the handler (whose stream
interactions are `evs` and whose return error is `handlerErr`), report
Handled with the code of the returned error, and return that error
unchanged. -/
def ServerMetrics.StreamServerInterceptor (m : ServerMetrics)
    (info : StreamServerInfo) (svc meth : String)
    (evs : List StreamEvent) (handlerErr : Option GoErr) :
    ServerMetrics × Option GoErr :=
  let (monitor, m) := newServerReporter m (streamRpcType info) svc meth
  let m := runServerStream monitor m evs
  let m := monitor.Handled (grpc_Code handlerErr) m
  (m, handlerErr)

/-- grpc.MethodInfo: method name plus the two streaming flags. -/
structure MethodInfo where
  Name : String
  IsClientStream : Bool
  IsServerStream : Bool
  deriving DecidableEq, Repr

/-- Modelled from the spec: `typeFromMethodInfo` (util.go, not under src/)
derives the call shape from the descriptor's streaming flags: both false
yields Unary, client-only ClientStream, server-only ServerStream, both
BidiStream. -/
def typeFromMethodInfo (mInfo : MethodInfo) : grpcType :=
  if !mInfo.IsClientStream && !mInfo.IsServerStream then
    grpcType.Unary
  else if mInfo.IsClientStream && !mInfo.IsServerStream then
    grpcType.ClientStream
  else if !mInfo.IsClientStream && mInfo.IsServerStream then
    grpcType.ServerStream
  else
    grpcType.BidiStream

/-- Body of the `for _, code := range allCodes` loop of preRegisterMethod:
reference the handled counter for one status code. -/
def preRegisterCode (methodType : grpcType) (serviceName methodName : String)
    (acc : ServerMetrics) (code : Code) : ServerMetrics :=
  { acc with serverHandledCounter := { acc.serverHandledCounter with
    series := getOrCreate acc.serverHandledCounter.series (methodType, serviceName, methodName, code) } }

/-- preRegisterMethod (part_000 lines 196-209): reference (never
increment) the started counter and both message counters, the
handling-time histogram when enabled, and the handled counter for every
known status code.  A nil histogram vector is left untouched (unreachable
under the histogram flag invariant). -/
def preRegisterMethod (metrics : ServerMetrics) (serviceName : String)
    (mInfo : MethodInfo) : ServerMetrics :=
  let methodName := mInfo.Name
  let methodType := typeFromMethodInfo mInfo
  let metrics := { metrics with serverStartedCounter := { metrics.serverStartedCounter with
    series := getOrCreate metrics.serverStartedCounter.series (methodType, serviceName, methodName) } }
  let metrics := { metrics with serverStreamMsgReceived := { metrics.serverStreamMsgReceived with
    series := getOrCreate metrics.serverStreamMsgReceived.series (methodType, serviceName, methodName) } }
  let metrics := { metrics with serverStreamMsgSent := { metrics.serverStreamMsgSent with
    series := getOrCreate metrics.serverStreamMsgSent.series (methodType, serviceName, methodName) } }
  let metrics := { metrics with serverHandledHistogram :=
    if metrics.serverHandledHistogramEnabled then
      metrics.serverHandledHistogram.map (fun h =>
        { h with series := getOrCreate h.series (methodType, serviceName, methodName) })
    else metrics.serverHandledHistogram }
  allCodes.foldl (preRegisterCode methodType serviceName methodName) metrics

/-- The service enumeration returned by `server.GetServiceInfo()`: per
service name, the list of its method descriptors. -/
abbrev ServiceInfoMap := List (String × List MethodInfo)

/-- Body of the outer `for serviceName, info := range serviceInfo` loop of
InitializeMetrics: pre-register every method of one service. -/
def registerServiceMethods (serviceName : String) (acc : ServerMetrics)
    (methods : List MethodInfo) : ServerMetrics :=
  methods.foldl (fun acc2 mInfo => preRegisterMethod acc2 serviceName mInfo) acc

/-- InitializeMetrics (part_000 lines 135-142): pre-register every method
of every registered service. -/
def ServerMetrics.InitializeMetrics (m : ServerMetrics) (serviceInfo : ServiceInfoMap) :
    ServerMetrics :=
  serviceInfo.foldl (fun acc entry => registerServiceMethods entry.1 acc entry.2) m

/-- ClientMetrics (client_metrics.go lines 25-60).  The PR-88 message-size
histograms use the label names ("grpc_service", "grpc_method",
"grpc_stats"); their children are keyed by that string triple. -/
structure ClientMetrics where
  clientStartedCounter : CounterVec Labels3
  clientStartedCounterOpts : CounterOpts
  clientHandledCounter : CounterVec Labels4
  clientStreamMsgReceived : CounterVec Labels3
  clientStreamMsgSent : CounterVec Labels3
  clientHandledHistogramEnabled : Bool
  clientHandledHistogramOpts : HistogramOpts
  clientHandledHistogram : Option (HistogramVec Labels3)
  clientStreamRecvHistogramEnabled : Bool
  clientStreamRecvHistogramOpts : HistogramOpts
  clientStreamRecvHistogram : Option (HistogramVec Labels3)
  clientStreamSendHistogramEnabled : Bool
  clientStreamSendHistogramOpts : HistogramOpts
  clientStreamSendHistogram : Option (HistogramVec Labels3)
  clientMsgSizeReceivedHistogramEnabled : Bool
  clientMsgSizeReceivedHistogramOpts : HistogramOpts
  clientMsgSizeReceivedHistogram : Option (HistogramVec (String × String × String))
  clientMsgSizeSentHistogramEnabled : Bool
  clientMsgSizeSentHistogramOpts : HistogramOpts
  clientMsgSizeSentHistogram : Option (HistogramVec (String × String × String))
  deriving DecidableEq, Repr

/-- NewClientMetrics (client_metrics.go lines 66-134).  The variadic
counter options are applied to each counter's construction options; the
`clientStartedCounterOpts` field is left at its zero value, as in the Go
constructor. -/
def NewClientMetrics (counterOpts : List CounterOption) : ClientMetrics where
  clientStartedCounter := NewCounterVec
    (applyCounterOptions counterOpts
      ⟨"grpc_client_started_total",
       "Total number of RPCs started on the client."⟩)
    ["grpc_type", "grpc_service", "grpc_method"]
  clientStartedCounterOpts := ⟨"", ""⟩
  clientHandledCounter := NewCounterVec
    (applyCounterOptions counterOpts
      ⟨"grpc_client_handled_total",
       "Total number of RPCs completed by the client, regardless of success or failure."⟩)
    ["grpc_type", "grpc_service", "grpc_method", "grpc_code"]
  clientStreamMsgReceived := NewCounterVec
    (applyCounterOptions counterOpts
      ⟨"grpc_client_msg_received_total",
       "Total number of RPC stream messages received by the client."⟩)
    ["grpc_type", "grpc_service", "grpc_method"]
  clientStreamMsgSent := NewCounterVec
    (applyCounterOptions counterOpts
      ⟨"grpc_client_msg_sent_total",
       "Total number of gRPC stream messages sent by the client."⟩)
    ["grpc_type", "grpc_service", "grpc_method"]
  clientHandledHistogramEnabled := false
  clientHandledHistogramOpts :=
    ⟨"grpc_client_handling_seconds",
     "Histogram of response latency (seconds) of the gRPC until it is finished by the application.",
     DefBuckets⟩
  clientHandledHistogram := none
  clientStreamRecvHistogramEnabled := false
  clientStreamRecvHistogramOpts :=
    ⟨"grpc_client_msg_recv_handling_seconds",
     "Histogram of response latency (seconds) of the gRPC single message receive.",
     DefBuckets⟩
  clientStreamRecvHistogram := none
  clientStreamSendHistogramEnabled := false
  clientStreamSendHistogramOpts :=
    ⟨"grpc_client_msg_send_handling_seconds",
     "Histogram of response latency (seconds) of the gRPC single message send.",
     DefBuckets⟩
  clientStreamSendHistogram := none
  clientMsgSizeReceivedHistogramEnabled := false
  clientMsgSizeReceivedHistogramOpts :=
    ⟨"grpc_client_msg_size_received_bytes",
     "Histogram of message sizes received by the client.",
     defMsgBytesBuckets⟩
  clientMsgSizeReceivedHistogram := none
  clientMsgSizeSentHistogramEnabled := false
  clientMsgSizeSentHistogramOpts :=
    ⟨"grpc_client_msg_size_sent_bytes",
     "Histogram of message sizes sent by the client.",
     defMsgBytesBuckets⟩
  clientMsgSizeSentHistogram := none

/-- One conditional block of ClientMetrics.Describe: when the flag is set
the vector's descriptor is emitted (nil vector: `none`, the nil-pointer
dereference); when the flag is clear nothing is emitted. -/
def describeHist {α : Type} (enabled : Bool) (o : Option (HistogramVec α)) :
    Option (List Desc) :=
  if enabled then
    match o with
    | some v => some v.describe
    | none => none
  else
    some []

/-- One conditional block of ClientMetrics.Collect. -/
def collectHist {α : Type} (enabled : Bool) (o : Option (HistogramVec α)) :
    Option (List MetricFamily) :=
  if enabled then
    match o with
    | some v => some v.collect
    | none => none
  else
    some []

/-- ClientMetrics.Describe (client_metrics.go lines 139-164). -/
def ClientMetrics.Describe (m : ClientMetrics) : Option (List Desc) := do
  let base := m.clientStartedCounter.describe ++ m.clientHandledCounter.describe ++
    m.clientStreamMsgReceived.describe ++ m.clientStreamMsgSent.describe
  let h1 ← describeHist m.clientHandledHistogramEnabled m.clientHandledHistogram
  let h2 ← describeHist m.clientStreamRecvHistogramEnabled m.clientStreamRecvHistogram
  let h3 ← describeHist m.clientStreamSendHistogramEnabled m.clientStreamSendHistogram
  let h4 ← describeHist m.clientMsgSizeReceivedHistogramEnabled m.clientMsgSizeReceivedHistogram
  let h5 ← describeHist m.clientMsgSizeSentHistogramEnabled m.clientMsgSizeSentHistogram
  pure (base ++ h1 ++ h2 ++ h3 ++ h4 ++ h5)

/-- ClientMetrics.Collect (client_metrics.go lines 169-194). -/
def ClientMetrics.Collect (m : ClientMetrics) : Option (List MetricFamily) := do
  let base := m.clientStartedCounter.collect ++ m.clientHandledCounter.collect ++
    m.clientStreamMsgReceived.collect ++ m.clientStreamMsgSent.collect
  let h1 ← collectHist m.clientHandledHistogramEnabled m.clientHandledHistogram
  let h2 ← collectHist m.clientStreamRecvHistogramEnabled m.clientStreamRecvHistogram
  let h3 ← collectHist m.clientStreamSendHistogramEnabled m.clientStreamSendHistogram
  let h4 ← collectHist m.clientMsgSizeReceivedHistogramEnabled m.clientMsgSizeReceivedHistogram
  let h5 ← collectHist m.clientMsgSizeSentHistogramEnabled m.clientMsgSizeSentHistogram
  pure (base ++ h1 ++ h2 ++ h3 ++ h4 ++ h5)

/-- EnableClientHandlingTimeHistogram (client_metrics.go lines 198-209). -/
def ClientMetrics.EnableClientHandlingTimeHistogram (m : ClientMetrics)
    (opts : List HistogramOption) : ClientMetrics :=
  let m := { m with clientHandledHistogramOpts :=
    applyHistogramOptions opts m.clientHandledHistogramOpts }
  let m := if !m.clientHandledHistogramEnabled then
      { m with clientHandledHistogram := some (NewHistogramVec
          m.clientHandledHistogramOpts
          ["grpc_type", "grpc_service", "grpc_method"]) }
    else m
  { m with clientHandledHistogramEnabled := true }

/-- EnableClientStreamReceiveTimeHistogram (client_metrics.go 213-226). -/
def ClientMetrics.EnableClientStreamReceiveTimeHistogram (m : ClientMetrics)
    (opts : List HistogramOption) : ClientMetrics :=
  let m := { m with clientStreamRecvHistogramOpts :=
    applyHistogramOptions opts m.clientStreamRecvHistogramOpts }
  let m := if !m.clientStreamRecvHistogramEnabled then
      { m with clientStreamRecvHistogram := some (NewHistogramVec
          m.clientStreamRecvHistogramOpts
          ["grpc_type", "grpc_service", "grpc_method"]) }
    else m
  { m with clientStreamRecvHistogramEnabled := true }

/-- EnableClientStreamSendTimeHistogram (client_metrics.go 230-243). -/
def ClientMetrics.EnableClientStreamSendTimeHistogram (m : ClientMetrics)
    (opts : List HistogramOption) : ClientMetrics :=
  let m := { m with clientStreamSendHistogramOpts :=
    applyHistogramOptions opts m.clientStreamSendHistogramOpts }
  let m := if !m.clientStreamSendHistogramEnabled then
      { m with clientStreamSendHistogram := some (NewHistogramVec
          m.clientStreamSendHistogramOpts
          ["grpc_type", "grpc_service", "grpc_method"]) }
    else m
  { m with clientStreamSendHistogramEnabled := true }

/-- EnableMsgSizeReceivedBytesHistogram (client_metrics.go 250-261). -/
def ClientMetrics.EnableMsgSizeReceivedBytesHistogram (m : ClientMetrics)
    (opts : List HistogramOption) : ClientMetrics :=
  let m := { m with clientMsgSizeReceivedHistogramOpts :=
    applyHistogramOptions opts m.clientMsgSizeReceivedHistogramOpts }
  let m := if !m.clientMsgSizeReceivedHistogramEnabled then
      { m with clientMsgSizeReceivedHistogram := some (NewHistogramVec
          m.clientMsgSizeReceivedHistogramOpts
          ["grpc_service", "grpc_method", "grpc_stats"]) }
    else m
  { m with clientMsgSizeReceivedHistogramEnabled := true }

/-- EnableMsgSizeSentBytesHistogram (client_metrics.go 266-277). -/
def ClientMetrics.EnableMsgSizeSentBytesHistogram (m : ClientMetrics)
    (opts : List HistogramOption) : ClientMetrics :=
  let m := { m with clientMsgSizeSentHistogramOpts :=
    applyHistogramOptions opts m.clientMsgSizeSentHistogramOpts }
  let m := if !m.clientMsgSizeSentHistogramEnabled then
      { m with clientMsgSizeSentHistogram := some (NewHistogramVec
          m.clientMsgSizeSentHistogramOpts
          ["grpc_service", "grpc_method", "grpc_stats"]) }
    else m
  { m with clientMsgSizeSentHistogramEnabled := true }

/-- Modelled from the spec: the client call reporter (client_reporter.go,
not under src/), bound to (call shape, service, method); the framework's
full method string is split into the two components before the reporter
is built. -/
structure clientReporter where
  rpcType : grpcType
  serviceName : String
  methodName : String
  deriving DecidableEq, Repr

def clientReporter.labels3 (r : clientReporter) : Labels3 :=
  (r.rpcType, r.serviceName, r.methodName)

/-- Modelled from the spec: `newClientReporter` increments the "started"
counter for the call's label tuple on creation (and starts the handling
timer, recorded by `Handled` when the handling-time histogram is
enabled). -/
def newClientReporter (m : ClientMetrics) (t : grpcType) (svc meth : String) :
    clientReporter × ClientMetrics :=
  let r : clientReporter := ⟨t, svc, meth⟩
  (r, { m with clientStartedCounter := { m.clientStartedCounter with
        series := incAt m.clientStartedCounter.series r.labels3 } })

/-- Modelled from the spec: `ReceivedMessage` increments "messages
received" for the reporter's tuple. -/
def clientReporter.ReceivedMessage (r : clientReporter) (m : ClientMetrics) : ClientMetrics :=
  { m with clientStreamMsgReceived := { m.clientStreamMsgReceived with
      series := incAt m.clientStreamMsgReceived.series r.labels3 } }

/-- Modelled from the spec: `SentMessage` increments "messages sent" for
the reporter's tuple. -/
def clientReporter.SentMessage (r : clientReporter) (m : ClientMetrics) : ClientMetrics :=
  { m with clientStreamMsgSent := { m.clientStreamMsgSent with
      series := incAt m.clientStreamMsgSent.series r.labels3 } }

/-- Modelled from the spec: the terminal `Handled(code)` increments the
"handled" counter for (shape, service, method, code) and, when the
handling-time histogram is enabled, observes the elapsed time on it (a
nil vector is left untouched; unreachable under the flag invariant). -/
def clientReporter.Handled (r : clientReporter) (code : Code) (m : ClientMetrics) : ClientMetrics :=
  let m := { m with clientHandledCounter := { m.clientHandledCounter with
    series := incAt m.clientHandledCounter.series (r.rpcType, r.serviceName, r.methodName, code) } }
  { m with clientHandledHistogram :=
      if m.clientHandledHistogramEnabled then
        m.clientHandledHistogram.map (fun h => h.observe r.labels3)
      else m.clientHandledHistogram }

/-- Modelled from the spec: the per-message send timer
(`SendMessageTimer` + `timer.ObserveDuration()`): when the send-latency
histogram is enabled, the elapsed duration of the message attempt is
observed on it regardless of the attempt's outcome. -/
def clientReporter.SendTimerObserve (r : clientReporter) (m : ClientMetrics) : ClientMetrics :=
  { m with clientStreamSendHistogram :=
      if m.clientStreamSendHistogramEnabled then
        m.clientStreamSendHistogram.map (fun h => h.observe r.labels3)
      else m.clientStreamSendHistogram }

/-- Modelled from the spec: the per-message receive timer
(`ReceiveMessageTimer` + `timer.ObserveDuration()`). -/
def clientReporter.RecvTimerObserve (r : clientReporter) (m : ClientMetrics) : ClientMetrics :=
  { m with clientStreamRecvHistogram :=
      if m.clientStreamRecvHistogramEnabled then
        m.clientStreamRecvHistogram.map (fun h => h.observe r.labels3)
      else m.clientStreamRecvHistogram }

/-- UnaryClientInterceptor (client_metrics.go lines 282-294), applied to
one call with the opaque invoker outcome `invokerErr`: sent is recorded
before invoking, received only on a nil error, then Handled with the code
extracted from the error, and the invoker's error is returned
unmodified. -/
def ClientMetrics.UnaryClientInterceptor (m : ClientMetrics)
    (svc meth : String) (invokerErr : Option GoErr) :
    ClientMetrics × Option GoErr :=
  let (monitor, m) := newClientReporter m grpcType.Unary svc meth
  let m := monitor.SentMessage m
  let err := invokerErr
  let m := if err = none then monitor.ReceivedMessage m else m
  let m := monitor.Handled (status_Code err) m
  (m, err)

/-- grpc.StreamDesc, restricted to the fields the embedded code reads. -/
structure StreamDesc where
  ClientStreams : Bool
  ServerStreams : Bool
  deriving DecidableEq, Repr

/-- clientStreamType (client_metrics.go lines 321-328). -/
def clientStreamType (desc : StreamDesc) : grpcType :=
  if desc.ClientStreams && !desc.ServerStreams then
    grpcType.ClientStream
  else if !desc.ClientStreams && desc.ServerStreams then
    grpcType.ServerStream
  else
    grpcType.BidiStream

/-- monitoredClientStream.SendMsg (client_metrics.go lines 336-344): the
send timer is observed regardless of the outcome, "sent" is incremented
only on success, and the error is returned unchanged. -/
def monitoredClientStream.SendMsg (monitor : clientReporter) (m : ClientMetrics)
    (err : Option GoErr) : ClientMetrics × Option GoErr :=
  let m := monitor.SendTimerObserve m
  (if err = none then monitor.SentMessage m else m, err)

/-- monitoredClientStream.RecvMsg (client_metrics.go lines 346-360): the
receive timer is observed regardless of the outcome; a nil error
increments "received", io.EOF reports Handled(OK), and any other error
reports Handled with the extracted status code.  The error is returned
unchanged. -/
def monitoredClientStream.RecvMsg (monitor : clientReporter) (m : ClientMetrics)
    (err : Option GoErr) : ClientMetrics × Option GoErr :=
  let m := monitor.RecvTimerObserve m
  (match err with
   | none => monitor.ReceivedMessage m
   | some GoErr.eof => monitor.Handled Code.OK m
   | some e => monitor.Handled (status_Code (some e)) m, err)

/-- Effect of one stream interaction of the client application on a
decorated client stream. -/
def clientStreamStep (monitor : clientReporter) (m : ClientMetrics) :
    StreamEvent → ClientMetrics
  | StreamEvent.sendMsg e => (monitoredClientStream.SendMsg monitor m e).1
  | StreamEvent.recvMsg e => (monitoredClientStream.RecvMsg monitor m e).1

/-- The sequence of stream interactions the client application performs on
a decorated client stream over its lifetime. -/
def runClientStream (monitor : clientReporter) (m : ClientMetrics)
    (evs : List StreamEvent) : ClientMetrics :=
  evs.foldl (clientStreamStep monitor) m

/-- A sequence of RecvMsg calls on a decorated client stream, each with
the result the underlying stream returns for it. -/
def runClientRecvs (monitor : clientReporter) (m : ClientMetrics)
    (results : List (Option GoErr)) : ClientMetrics :=
  results.foldl (fun acc e => (monitoredClientStream.RecvMsg monitor acc e).1) m

/-- StreamClientInterceptor (client_metrics.go lines 297-308), applied to
one call: create a reporter for the derived shape and run the
stream-establishing call; on failure resolve and report the status at
once (no wrapping, second component `none`); on success return the
decorated stream (represented by its reporter). -/
def ClientMetrics.StreamClientInterceptor (m : ClientMetrics)
    (desc : StreamDesc) (svc meth : String) (streamerErr : Option GoErr) :
    ClientMetrics × Option clientReporter × Option GoErr :=
  let (monitor, m) := newClientReporter m (clientStreamType desc) svc meth
  match streamerErr with
  | some e => (monitor.Handled (status_Code (some e)) m, none, some e)
  | none => (m, some monitor, none)

/-- A whole streaming client call: the interceptor, followed — when the
stream was established — by the application's interactions with the
decorated stream. -/
def runStreamClientRpc (m : ClientMetrics) (desc : StreamDesc)
    (svc meth : String) (streamerErr : Option GoErr)
    (evs : List StreamEvent) : ClientMetrics :=
  match m.StreamClientInterceptor desc svc meth streamerErr with
  | (m', some monitor, _) => runClientStream monitor m' evs
  | (m', none, _) => m'

/-- Number of sends in an interaction sequence whose underlying write
succeeded. -/
def countSuccessfulSends (evs : List StreamEvent) : Nat :=
  evs.countP fun ev => match ev with
    | StreamEvent.sendMsg none => true
    | _ => false

/-- Number of receives in an interaction sequence whose underlying read
succeeded. -/
def countSuccessfulRecvs (evs : List StreamEvent) : Nat :=
  evs.countP fun ev => match ev with
    | StreamEvent.recvMsg none => true
    | _ => false

/-- Number of send attempts (successful or not). -/
def countSends (evs : List StreamEvent) : Nat :=
  evs.countP fun ev => match ev with
    | StreamEvent.sendMsg _ => true
    | _ => false

/-- Number of receive attempts (successful or not). -/
def countRecvs (evs : List StreamEvent) : Nat :=
  evs.countP fun ev => match ev with
    | StreamEvent.recvMsg _ => true
    | _ => false

/-- The status code a single RecvMsg result makes the decorated client
stream report to `Handled` (`none` when the read succeeds and nothing is
reported): io.EOF reports OK, any other error its extracted code. -/
def recvHandledCode : Option GoErr → Option Code
  | none => none
  | some GoErr.eof => some Code.OK
  | some e => some (status_Code (some e))

/-- The code one interaction makes the decorated client stream report
(sends never report). -/
def eventHandledCode : StreamEvent → Option Code
  | StreamEvent.sendMsg _ => none
  | StreamEvent.recvMsg e => recvHandledCode e

/-- How many interactions of the sequence make the decorated client
stream invoke `Handled` with code `c`. -/
def countHandledWith (evs : List StreamEvent) (c : Code) : Nat :=
  evs.countP fun ev => decide (eventHandledCode ev = some c)

theorem obsCount_map_observe {α : Type} [DecidableEq α]
    (o : Option (HistogramVec α)) (k k' : α) :
    obsCount (o.map (fun h => h.observe k)) k'
      = obsCount o k' + (if o.isSome && decide (k' = k) then 1 else 0) := by
  cases o with
  | none => simp [obsCount]
  | some h =>
    by_cases hk : k' = k <;>
      simp [obsCount, HistogramVec.observe, lookupVal_incAt, hk]

theorem clientStreamStep_started (r : clientReporter) (m : ClientMetrics)
    (ev : StreamEvent) :
    (clientStreamStep r m ev).clientStartedCounter = m.clientStartedCounter := by
  cases ev with
  | sendMsg e =>
    cases e <;>
      simp [clientStreamStep, monitoredClientStream.SendMsg,
        clientReporter.SendTimerObserve, clientReporter.SentMessage]
  | recvMsg e =>
    match e with
    | none =>
      simp [clientStreamStep, monitoredClientStream.RecvMsg,
        clientReporter.RecvTimerObserve, clientReporter.ReceivedMessage]
    | some GoErr.eof =>
      simp [clientStreamStep, monitoredClientStream.RecvMsg,
        clientReporter.RecvTimerObserve, clientReporter.Handled]
    | some (GoErr.statusErr c) =>
      simp [clientStreamStep, monitoredClientStream.RecvMsg,
        clientReporter.RecvTimerObserve, clientReporter.Handled]
    | some GoErr.plain =>
      simp [clientStreamStep, monitoredClientStream.RecvMsg,
        clientReporter.RecvTimerObserve, clientReporter.Handled]

theorem clientStreamStep_sent (r : clientReporter) (m : ClientMetrics)
    (ev : StreamEvent) (k : Labels3) :
    lookupVal (clientStreamStep r m ev).clientStreamMsgSent.series k
      = lookupVal m.clientStreamMsgSent.series k
        + (if k = r.labels3 then countSuccessfulSends [ev] else 0) := by
  cases ev with
  | sendMsg e =>
    cases e <;>
      simp [clientStreamStep, monitoredClientStream.SendMsg,
        clientReporter.SendTimerObserve, clientReporter.SentMessage,
        lookupVal_incAt, countSuccessfulSends]
  | recvMsg e =>
    cases e with
    | none =>
      simp [clientStreamStep, monitoredClientStream.RecvMsg,
        clientReporter.RecvTimerObserve, clientReporter.ReceivedMessage,
        countSuccessfulSends]
    | some ge =>
      cases ge <;>
        simp [clientStreamStep, monitoredClientStream.RecvMsg,
          clientReporter.RecvTimerObserve, clientReporter.Handled,
          countSuccessfulSends]

theorem clientStreamStep_received (r : clientReporter) (m : ClientMetrics)
    (ev : StreamEvent) (k : Labels3) :
    lookupVal (clientStreamStep r m ev).clientStreamMsgReceived.series k
      = lookupVal m.clientStreamMsgReceived.series k
        + (if k = r.labels3 then countSuccessfulRecvs [ev] else 0) := by
  cases ev with
  | sendMsg e =>
    cases e <;>
      simp [clientStreamStep, monitoredClientStream.SendMsg,
        clientReporter.SendTimerObserve, clientReporter.SentMessage,
        countSuccessfulRecvs]
  | recvMsg e =>
    cases e with
    | none =>
      simp [clientStreamStep, monitoredClientStream.RecvMsg,
        clientReporter.RecvTimerObserve, clientReporter.ReceivedMessage,
        lookupVal_incAt, countSuccessfulRecvs]
    | some ge =>
      cases ge <;>
        simp [clientStreamStep, monitoredClientStream.RecvMsg,
          clientReporter.RecvTimerObserve, clientReporter.Handled,
          countSuccessfulRecvs]

theorem clientStreamStep_handled (r : clientReporter) (m : ClientMetrics)
    (ev : StreamEvent) (c : Code) :
    lookupVal (clientStreamStep r m ev).clientHandledCounter.series
        (r.rpcType, r.serviceName, r.methodName, c)
      = lookupVal m.clientHandledCounter.series
          (r.rpcType, r.serviceName, r.methodName, c)
        + countHandledWith [ev] c := by
  cases ev with
  | sendMsg e =>
    cases e <;>
      simp [clientStreamStep, monitoredClientStream.SendMsg,
        clientReporter.SendTimerObserve, clientReporter.SentMessage,
        countHandledWith, eventHandledCode]
  | recvMsg e =>
    cases e with
    | none =>
      simp [clientStreamStep, monitoredClientStream.RecvMsg,
        clientReporter.RecvTimerObserve, clientReporter.ReceivedMessage,
        countHandledWith, eventHandledCode, recvHandledCode]
    | some ge =>
      cases ge with
      | eof =>
        by_cases hc : c = Code.OK
        · simp [clientStreamStep, monitoredClientStream.RecvMsg,
            clientReporter.RecvTimerObserve, clientReporter.Handled,
            lookupVal_incAt, countHandledWith, eventHandledCode,
            recvHandledCode, hc]
        · simp [clientStreamStep, monitoredClientStream.RecvMsg,
            clientReporter.RecvTimerObserve, clientReporter.Handled,
            lookupVal_incAt, countHandledWith, eventHandledCode,
            recvHandledCode, hc, Ne.symm hc]
      | statusErr c' =>
        by_cases hc : c = c'
        · simp [clientStreamStep, monitoredClientStream.RecvMsg,
            clientReporter.RecvTimerObserve, clientReporter.Handled,
            lookupVal_incAt, countHandledWith, eventHandledCode,
            recvHandledCode, status_Code, hc]
        · simp [clientStreamStep, monitoredClientStream.RecvMsg,
            clientReporter.RecvTimerObserve, clientReporter.Handled,
            lookupVal_incAt, countHandledWith, eventHandledCode,
            recvHandledCode, status_Code, hc, Ne.symm hc]
      | plain =>
        by_cases hc : c = Code.Unknown
        · simp [clientStreamStep, monitoredClientStream.RecvMsg,
            clientReporter.RecvTimerObserve, clientReporter.Handled,
            lookupVal_incAt, countHandledWith, eventHandledCode,
            recvHandledCode, status_Code, hc]
        · simp [clientStreamStep, monitoredClientStream.RecvMsg,
            clientReporter.RecvTimerObserve, clientReporter.Handled,
            lookupVal_incAt, countHandledWith, eventHandledCode,
            recvHandledCode, status_Code, hc, Ne.symm hc]

theorem clientStreamStep_sendHistObs (r : clientReporter) (m : ClientMetrics)
    (ev : StreamEvent) (k : Labels3) :
    obsCount (clientStreamStep r m ev).clientStreamSendHistogram k
      = obsCount m.clientStreamSendHistogram k
        + (if m.clientStreamSendHistogramEnabled
              && m.clientStreamSendHistogram.isSome
              && decide (k = r.labels3) then countSends [ev] else 0) := by
  cases ev with
  | sendMsg e =>
    by_cases he : m.clientStreamSendHistogramEnabled
    · cases e <;>
        simp [clientStreamStep, monitoredClientStream.SendMsg,
          clientReporter.SendTimerObserve, clientReporter.SentMessage,
          obsCount_map_observe, countSends, he]
    · cases e <;>
        simp [clientStreamStep, monitoredClientStream.SendMsg,
          clientReporter.SendTimerObserve, clientReporter.SentMessage,
          countSends, he]
  | recvMsg e =>
    cases e with
    | none =>
      simp [clientStreamStep, monitoredClientStream.RecvMsg,
        clientReporter.RecvTimerObserve, clientReporter.ReceivedMessage,
        countSends]
    | some ge =>
      cases ge <;>
        simp [clientStreamStep, monitoredClientStream.RecvMsg,
          clientReporter.RecvTimerObserve, clientReporter.Handled,
          countSends]

theorem clientStreamStep_recvHistObs (r : clientReporter) (m : ClientMetrics)
    (ev : StreamEvent) (k : Labels3) :
    obsCount (clientStreamStep r m ev).clientStreamRecvHistogram k
      = obsCount m.clientStreamRecvHistogram k
        + (if m.clientStreamRecvHistogramEnabled
              && m.clientStreamRecvHistogram.isSome
              && decide (k = r.labels3) then countRecvs [ev] else 0) := by
  cases ev with
  | sendMsg e =>
    cases e <;>
      simp [clientStreamStep, monitoredClientStream.SendMsg,
        clientReporter.SendTimerObserve, clientReporter.SentMessage,
        countRecvs]
  | recvMsg e =>
    by_cases he : m.clientStreamRecvHistogramEnabled
    · cases e with
      | none =>
        simp [clientStreamStep, monitoredClientStream.RecvMsg,
          clientReporter.RecvTimerObserve, clientReporter.ReceivedMessage,
          obsCount_map_observe, countRecvs, he]
      | some ge =>
        cases ge <;>
          simp [clientStreamStep, monitoredClientStream.RecvMsg,
            clientReporter.RecvTimerObserve, clientReporter.Handled,
            obsCount_map_observe, countRecvs, he]
    · cases e with
      | none =>
        simp [clientStreamStep, monitoredClientStream.RecvMsg,
          clientReporter.RecvTimerObserve, clientReporter.ReceivedMessage,
          countRecvs, he]
      | some ge =>
        cases ge <;>
          simp [clientStreamStep, monitoredClientStream.RecvMsg,
            clientReporter.RecvTimerObserve, clientReporter.Handled,
            countRecvs, he]

theorem clientStreamStep_flags (r : clientReporter) (m : ClientMetrics)
    (ev : StreamEvent) :
    (clientStreamStep r m ev).clientHandledHistogramEnabled
        = m.clientHandledHistogramEnabled
      ∧ (clientStreamStep r m ev).clientStreamRecvHistogramEnabled
        = m.clientStreamRecvHistogramEnabled
      ∧ (clientStreamStep r m ev).clientStreamSendHistogramEnabled
        = m.clientStreamSendHistogramEnabled
      ∧ (clientStreamStep r m ev).clientMsgSizeReceivedHistogramEnabled
        = m.clientMsgSizeReceivedHistogramEnabled
      ∧ (clientStreamStep r m ev).clientMsgSizeSentHistogramEnabled
        = m.clientMsgSizeSentHistogramEnabled
      ∧ (clientStreamStep r m ev).clientHandledHistogram.isSome
        = m.clientHandledHistogram.isSome
      ∧ (clientStreamStep r m ev).clientStreamRecvHistogram.isSome
        = m.clientStreamRecvHistogram.isSome
      ∧ (clientStreamStep r m ev).clientStreamSendHistogram.isSome
        = m.clientStreamSendHistogram.isSome
      ∧ (clientStreamStep r m ev).clientMsgSizeReceivedHistogram
        = m.clientMsgSizeReceivedHistogram
      ∧ (clientStreamStep r m ev).clientMsgSizeSentHistogram
        = m.clientMsgSizeSentHistogram := by
  cases ev with
  | sendMsg e =>
    cases e <;>
      simp [clientStreamStep, monitoredClientStream.SendMsg,
        clientReporter.SendTimerObserve, clientReporter.SentMessage] <;>
      split <;> simp
  | recvMsg e =>
    cases e with
    | none =>
      simp [clientStreamStep, monitoredClientStream.RecvMsg,
        clientReporter.RecvTimerObserve, clientReporter.ReceivedMessage] <;>
      split <;> simp
    | some ge =>
      cases ge <;>
        (simp [clientStreamStep, monitoredClientStream.RecvMsg,
          clientReporter.RecvTimerObserve, clientReporter.Handled] <;>
         constructor <;> split <;> simp)

theorem runClientStream_cons (r : clientReporter) (m : ClientMetrics)
    (ev : StreamEvent) (rest : List StreamEvent) :
    runClientStream r m (ev :: rest)
      = runClientStream r (clientStreamStep r m ev) rest := rfl

theorem runClientStream_started (r : clientReporter) (m : ClientMetrics)
    (evs : List StreamEvent) :
    (runClientStream r m evs).clientStartedCounter = m.clientStartedCounter := by
  induction evs generalizing m with
  | nil => rfl
  | cons ev rest ih =>
    rw [runClientStream_cons, ih, clientStreamStep_started]

theorem runClientStream_sent (r : clientReporter) (m : ClientMetrics)
    (evs : List StreamEvent) (k : Labels3) :
    lookupVal (runClientStream r m evs).clientStreamMsgSent.series k
      = lookupVal m.clientStreamMsgSent.series k
        + (if k = r.labels3 then countSuccessfulSends evs else 0) := by
  induction evs generalizing m with
  | nil => simp [runClientStream, countSuccessfulSends]
  | cons ev rest ih =>
    rw [runClientStream_cons, ih, clientStreamStep_sent]
    by_cases hk : k = r.labels3 <;>
      simp [hk, countSuccessfulSends, List.countP_cons] <;> omega

theorem runClientStream_received (r : clientReporter) (m : ClientMetrics)
    (evs : List StreamEvent) (k : Labels3) :
    lookupVal (runClientStream r m evs).clientStreamMsgReceived.series k
      = lookupVal m.clientStreamMsgReceived.series k
        + (if k = r.labels3 then countSuccessfulRecvs evs else 0) := by
  induction evs generalizing m with
  | nil => simp [runClientStream, countSuccessfulRecvs]
  | cons ev rest ih =>
    rw [runClientStream_cons, ih, clientStreamStep_received]
    by_cases hk : k = r.labels3 <;>
      simp [hk, countSuccessfulRecvs, List.countP_cons] <;> omega

theorem runClientStream_handled (r : clientReporter) (m : ClientMetrics)
    (evs : List StreamEvent) (c : Code) :
    lookupVal (runClientStream r m evs).clientHandledCounter.series
        (r.rpcType, r.serviceName, r.methodName, c)
      = lookupVal m.clientHandledCounter.series
          (r.rpcType, r.serviceName, r.methodName, c)
        + countHandledWith evs c := by
  induction evs generalizing m with
  | nil => simp [runClientStream, countHandledWith]
  | cons ev rest ih =>
    rw [runClientStream_cons, ih, clientStreamStep_handled]
    simp [countHandledWith, List.countP_cons]
    omega

theorem runClientStream_sendHistObs (r : clientReporter) (m : ClientMetrics)
    (evs : List StreamEvent) (k : Labels3) :
    obsCount (runClientStream r m evs).clientStreamSendHistogram k
      = obsCount m.clientStreamSendHistogram k
        + (if m.clientStreamSendHistogramEnabled
              && m.clientStreamSendHistogram.isSome
              && decide (k = r.labels3) then countSends evs else 0) := by
  induction evs generalizing m with
  | nil => simp [runClientStream, countSends]
  | cons ev rest ih =>
    rw [runClientStream_cons, ih, clientStreamStep_sendHistObs,
      (clientStreamStep_flags r m ev).2.2.1,
      (clientStreamStep_flags r m ev).2.2.2.2.2.2.2.1]
    by_cases he : m.clientStreamSendHistogramEnabled
      && m.clientStreamSendHistogram.isSome && decide (k = r.labels3) <;>
      simp [he, countSends, List.countP_cons] <;> omega

theorem runClientStream_recvHistObs (r : clientReporter) (m : ClientMetrics)
    (evs : List StreamEvent) (k : Labels3) :
    obsCount (runClientStream r m evs).clientStreamRecvHistogram k
      = obsCount m.clientStreamRecvHistogram k
        + (if m.clientStreamRecvHistogramEnabled
              && m.clientStreamRecvHistogram.isSome
              && decide (k = r.labels3) then countRecvs evs else 0) := by
  induction evs generalizing m with
  | nil => simp [runClientStream, countRecvs]
  | cons ev rest ih =>
    rw [runClientStream_cons, ih, clientStreamStep_recvHistObs,
      (clientStreamStep_flags r m ev).2.1,
      (clientStreamStep_flags r m ev).2.2.2.2.2.2.1]
    by_cases he : m.clientStreamRecvHistogramEnabled
      && m.clientStreamRecvHistogram.isSome && decide (k = r.labels3) <;>
      simp [he, countRecvs, List.countP_cons] <;> omega

theorem runClientStream_flags (r : clientReporter) (m : ClientMetrics)
    (evs : List StreamEvent) :
    (runClientStream r m evs).clientHandledHistogramEnabled
        = m.clientHandledHistogramEnabled
      ∧ (runClientStream r m evs).clientStreamRecvHistogramEnabled
        = m.clientStreamRecvHistogramEnabled
      ∧ (runClientStream r m evs).clientStreamSendHistogramEnabled
        = m.clientStreamSendHistogramEnabled
      ∧ (runClientStream r m evs).clientMsgSizeReceivedHistogramEnabled
        = m.clientMsgSizeReceivedHistogramEnabled
      ∧ (runClientStream r m evs).clientMsgSizeSentHistogramEnabled
        = m.clientMsgSizeSentHistogramEnabled
      ∧ (runClientStream r m evs).clientHandledHistogram.isSome
        = m.clientHandledHistogram.isSome
      ∧ (runClientStream r m evs).clientStreamRecvHistogram.isSome
        = m.clientStreamRecvHistogram.isSome
      ∧ (runClientStream r m evs).clientStreamSendHistogram.isSome
        = m.clientStreamSendHistogram.isSome
      ∧ (runClientStream r m evs).clientMsgSizeReceivedHistogram
        = m.clientMsgSizeReceivedHistogram
      ∧ (runClientStream r m evs).clientMsgSizeSentHistogram
        = m.clientMsgSizeSentHistogram := by
  induction evs generalizing m with
  | nil => exact ⟨rfl, rfl, rfl, rfl, rfl, rfl, rfl, rfl, rfl, rfl⟩
  | cons ev rest ih =>
    rw [runClientStream_cons]
    have hs := clientStreamStep_flags r m ev
    have hr := ih (clientStreamStep r m ev)
    exact ⟨hr.1.trans hs.1,
      hr.2.1.trans hs.2.1,
      hr.2.2.1.trans hs.2.2.1,
      hr.2.2.2.1.trans hs.2.2.2.1,
      hr.2.2.2.2.1.trans hs.2.2.2.2.1,
      hr.2.2.2.2.2.1.trans hs.2.2.2.2.2.1,
      hr.2.2.2.2.2.2.1.trans hs.2.2.2.2.2.2.1,
      hr.2.2.2.2.2.2.2.1.trans hs.2.2.2.2.2.2.2.1,
      hr.2.2.2.2.2.2.2.2.1.trans hs.2.2.2.2.2.2.2.2.1,
      hr.2.2.2.2.2.2.2.2.2.trans hs.2.2.2.2.2.2.2.2.2⟩

theorem serverStreamStep_sent (r : serverReporter) (m : ServerMetrics)
    (ev : StreamEvent) (k : Labels3) :
    lookupVal (serverStreamStep r m ev).serverStreamMsgSent.series k
      = lookupVal m.serverStreamMsgSent.series k
        + (if k = r.labels3 then countSuccessfulSends [ev] else 0) := by
  cases ev with
  | sendMsg e =>
    cases e <;>
      simp [serverStreamStep, monitoredServerStream.SendMsg,
        serverReporter.SentMessage, lookupVal_incAt, countSuccessfulSends]
  | recvMsg e =>
    cases e <;>
      simp [serverStreamStep, monitoredServerStream.RecvMsg,
        serverReporter.ReceivedMessage, countSuccessfulSends]

theorem serverStreamStep_received (r : serverReporter) (m : ServerMetrics)
    (ev : StreamEvent) (k : Labels3) :
    lookupVal (serverStreamStep r m ev).serverStreamMsgReceived.series k
      = lookupVal m.serverStreamMsgReceived.series k
        + (if k = r.labels3 then countSuccessfulRecvs [ev] else 0) := by
  cases ev with
  | sendMsg e =>
    cases e <;>
      simp [serverStreamStep, monitoredServerStream.SendMsg,
        serverReporter.SentMessage, countSuccessfulRecvs]
  | recvMsg e =>
    cases e <;>
      simp [serverStreamStep, monitoredServerStream.RecvMsg,
        serverReporter.ReceivedMessage, lookupVal_incAt, countSuccessfulRecvs]

theorem serverStreamStep_rest (r : serverReporter) (m : ServerMetrics)
    (ev : StreamEvent) :
    (serverStreamStep r m ev).serverStartedCounter = m.serverStartedCounter
      ∧ (serverStreamStep r m ev).serverHandledCounter = m.serverHandledCounter
      ∧ (serverStreamStep r m ev).serverHandledHistogramEnabled
        = m.serverHandledHistogramEnabled
      ∧ (serverStreamStep r m ev).serverHandledHistogram
        = m.serverHandledHistogram := by
  cases ev with
  | sendMsg e =>
    cases e <;>
      simp [serverStreamStep, monitoredServerStream.SendMsg,
        serverReporter.SentMessage]
  | recvMsg e =>
    cases e <;>
      simp [serverStreamStep, monitoredServerStream.RecvMsg,
        serverReporter.ReceivedMessage]

theorem runServerStream_cons (r : serverReporter) (m : ServerMetrics)
    (ev : StreamEvent) (rest : List StreamEvent) :
    runServerStream r m (ev :: rest)
      = runServerStream r (serverStreamStep r m ev) rest := rfl

theorem runServerStream_sent (r : serverReporter) (m : ServerMetrics)
    (evs : List StreamEvent) (k : Labels3) :
    lookupVal (runServerStream r m evs).serverStreamMsgSent.series k
      = lookupVal m.serverStreamMsgSent.series k
        + (if k = r.labels3 then countSuccessfulSends evs else 0) := by
  induction evs generalizing m with
  | nil => simp [runServerStream, countSuccessfulSends]
  | cons ev rest ih =>
    rw [runServerStream_cons, ih, serverStreamStep_sent]
    by_cases hk : k = r.labels3 <;>
      simp [hk, countSuccessfulSends, List.countP_cons] <;> omega

theorem runServerStream_received (r : serverReporter) (m : ServerMetrics)
    (evs : List StreamEvent) (k : Labels3) :
    lookupVal (runServerStream r m evs).serverStreamMsgReceived.series k
      = lookupVal m.serverStreamMsgReceived.series k
        + (if k = r.labels3 then countSuccessfulRecvs evs else 0) := by
  induction evs generalizing m with
  | nil => simp [runServerStream, countSuccessfulRecvs]
  | cons ev rest ih =>
    rw [runServerStream_cons, ih, serverStreamStep_received]
    by_cases hk : k = r.labels3 <;>
      simp [hk, countSuccessfulRecvs, List.countP_cons] <;> omega

theorem runServerStream_rest (r : serverReporter) (m : ServerMetrics)
    (evs : List StreamEvent) :
    (runServerStream r m evs).serverStartedCounter = m.serverStartedCounter
      ∧ (runServerStream r m evs).serverHandledCounter = m.serverHandledCounter
      ∧ (runServerStream r m evs).serverHandledHistogramEnabled
        = m.serverHandledHistogramEnabled
      ∧ (runServerStream r m evs).serverHandledHistogram
        = m.serverHandledHistogram := by
  induction evs generalizing m with
  | nil => exact ⟨rfl, rfl, rfl, rfl⟩
  | cons ev rest ih =>
    rw [runServerStream_cons]
    have hs := serverStreamStep_rest r m ev
    have hr := ih (serverStreamStep r m ev)
    exact ⟨hr.1.trans hs.1, hr.2.1.trans hs.2.1,
      hr.2.2.1.trans hs.2.2.1, hr.2.2.2.trans hs.2.2.2⟩

/-- Whether an optional histogram vector either is nil or already holds a
child for `k` (the state in which pre-registration of `k` is a no-op). -/
def optHistKeyOk (o : Option (HistogramVec Labels3)) (k : Labels3) : Bool :=
  match o with
  | none => true
  | some h => hasKey h.series k

theorem foldCodes_fields (t : grpcType) (s n : String) (codes : List Code)
    (metrics : ServerMetrics) :
    (codes.foldl (preRegisterCode t s n) metrics).serverStartedCounter
        = metrics.serverStartedCounter
      ∧ (codes.foldl (preRegisterCode t s n) metrics).serverStreamMsgReceived
        = metrics.serverStreamMsgReceived
      ∧ (codes.foldl (preRegisterCode t s n) metrics).serverStreamMsgSent
        = metrics.serverStreamMsgSent
      ∧ (codes.foldl (preRegisterCode t s n) metrics).serverHandledHistogramEnabled
        = metrics.serverHandledHistogramEnabled
      ∧ (codes.foldl (preRegisterCode t s n) metrics).serverHandledHistogram
        = metrics.serverHandledHistogram
      ∧ (codes.foldl (preRegisterCode t s n) metrics).serverHandledCounter.opts
        = metrics.serverHandledCounter.opts
      ∧ (codes.foldl (preRegisterCode t s n) metrics).serverHandledCounter.labelNames
        = metrics.serverHandledCounter.labelNames := by
  induction codes generalizing metrics with
  | nil => exact ⟨rfl, rfl, rfl, rfl, rfl, rfl, rfl⟩
  | cons c rest ih =>
    have h := ih (preRegisterCode t s n metrics c)
    refine ⟨h.1.trans ?_, h.2.1.trans ?_, h.2.2.1.trans ?_, h.2.2.2.1.trans ?_,
      h.2.2.2.2.1.trans ?_, h.2.2.2.2.2.1.trans ?_, h.2.2.2.2.2.2.trans ?_⟩ <;>
      simp [preRegisterCode]

theorem foldCodes_lookup (t : grpcType) (s n : String) (codes : List Code)
    (metrics : ServerMetrics) (k4 : Labels4) :
    lookupVal (codes.foldl (preRegisterCode t s n) metrics).serverHandledCounter.series k4
      = lookupVal metrics.serverHandledCounter.series k4 := by
  induction codes generalizing metrics with
  | nil => rfl
  | cons c rest ih =>
    rw [List.foldl_cons, ih]
    simp [preRegisterCode, lookupVal_getOrCreate]

theorem foldCodes_hasKey_mono (t : grpcType) (s n : String) (codes : List Code)
    (metrics : ServerMetrics) (k4 : Labels4)
    (h : hasKey metrics.serverHandledCounter.series k4 = true) :
    hasKey (codes.foldl (preRegisterCode t s n) metrics).serverHandledCounter.series k4
      = true := by
  induction codes generalizing metrics with
  | nil => exact h
  | cons c rest ih =>
    rw [List.foldl_cons]
    refine ih _ ?_
    simp [preRegisterCode, hasKey_getOrCreate, h]

theorem foldCodes_hasKey_mem (t : grpcType) (s n : String) (codes : List Code)
    (metrics : ServerMetrics) (c : Code) (hc : c ∈ codes) :
    hasKey (codes.foldl (preRegisterCode t s n) metrics).serverHandledCounter.series
      (t, s, n, c) = true := by
  induction codes generalizing metrics with
  | nil => cases hc
  | cons c0 rest ih =>
    rw [List.foldl_cons]
    rcases List.mem_cons.mp hc with h0 | h0
    · subst h0
      refine foldCodes_hasKey_mono t s n rest _ _ ?_
      simp [preRegisterCode, hasKey_getOrCreate]
    · exact ih _ h0

theorem foldCodes_id_of_done (t : grpcType) (s n : String) (codes : List Code)
    (metrics : ServerMetrics)
    (h : ∀ c ∈ codes, hasKey metrics.serverHandledCounter.series (t, s, n, c) = true) :
    codes.foldl (preRegisterCode t s n) metrics = metrics := by
  induction codes generalizing metrics with
  | nil => rfl
  | cons c rest ih =>
    rw [List.foldl_cons]
    have hc : preRegisterCode t s n metrics c = metrics := by
      simp [preRegisterCode, getOrCreate_of_hasKey _ _ (h c (List.mem_cons_self c rest))]
    rw [hc]
    exact ih metrics (fun c' hc' => h c' (List.mem_cons_of_mem c hc'))

theorem foldCodes_started (t : grpcType) (s n : String) (codes : List Code)
    (metrics : ServerMetrics) :
    (codes.foldl (preRegisterCode t s n) metrics).serverStartedCounter
      = metrics.serverStartedCounter :=
  (foldCodes_fields t s n codes metrics).1

theorem foldCodes_received (t : grpcType) (s n : String) (codes : List Code)
    (metrics : ServerMetrics) :
    (codes.foldl (preRegisterCode t s n) metrics).serverStreamMsgReceived
      = metrics.serverStreamMsgReceived :=
  (foldCodes_fields t s n codes metrics).2.1

theorem foldCodes_sent (t : grpcType) (s n : String) (codes : List Code)
    (metrics : ServerMetrics) :
    (codes.foldl (preRegisterCode t s n) metrics).serverStreamMsgSent
      = metrics.serverStreamMsgSent :=
  (foldCodes_fields t s n codes metrics).2.2.1

theorem foldCodes_histEnabled (t : grpcType) (s n : String) (codes : List Code)
    (metrics : ServerMetrics) :
    (codes.foldl (preRegisterCode t s n) metrics).serverHandledHistogramEnabled
      = metrics.serverHandledHistogramEnabled :=
  (foldCodes_fields t s n codes metrics).2.2.2.1

theorem foldCodes_hist (t : grpcType) (s n : String) (codes : List Code)
    (metrics : ServerMetrics) :
    (codes.foldl (preRegisterCode t s n) metrics).serverHandledHistogram
      = metrics.serverHandledHistogram :=
  (foldCodes_fields t s n codes metrics).2.2.2.2.1

theorem preRegisterMethod_started (m : ServerMetrics) (s : String) (mi : MethodInfo) :
    (preRegisterMethod m s mi).serverStartedCounter
      = { m.serverStartedCounter with
          series := getOrCreate m.serverStartedCounter.series (typeFromMethodInfo mi, s, mi.Name) } := by
  simp [preRegisterMethod, foldCodes_started]

theorem preRegisterMethod_received (m : ServerMetrics) (s : String) (mi : MethodInfo) :
    (preRegisterMethod m s mi).serverStreamMsgReceived
      = { m.serverStreamMsgReceived with
          series := getOrCreate m.serverStreamMsgReceived.series (typeFromMethodInfo mi, s, mi.Name) } := by
  simp [preRegisterMethod, foldCodes_received]

theorem preRegisterMethod_sent (m : ServerMetrics) (s : String) (mi : MethodInfo) :
    (preRegisterMethod m s mi).serverStreamMsgSent
      = { m.serverStreamMsgSent with
          series := getOrCreate m.serverStreamMsgSent.series (typeFromMethodInfo mi, s, mi.Name) } := by
  simp [preRegisterMethod, foldCodes_sent]

theorem preRegisterMethod_histEnabled (m : ServerMetrics) (s : String) (mi : MethodInfo) :
    (preRegisterMethod m s mi).serverHandledHistogramEnabled
      = m.serverHandledHistogramEnabled := by
  simp [preRegisterMethod, foldCodes_histEnabled]

theorem preRegisterMethod_hist (m : ServerMetrics) (s : String) (mi : MethodInfo) :
    (preRegisterMethod m s mi).serverHandledHistogram
      = (if m.serverHandledHistogramEnabled then
          m.serverHandledHistogram.map (fun h => { h with
            series := getOrCreate h.series (typeFromMethodInfo mi, s, mi.Name) })
        else m.serverHandledHistogram) := by
  simp [preRegisterMethod, foldCodes_hist]

theorem preRegisterMethod_handled_lookup (m : ServerMetrics) (s : String)
    (mi : MethodInfo) (k4 : Labels4) :
    lookupVal (preRegisterMethod m s mi).serverHandledCounter.series k4
      = lookupVal m.serverHandledCounter.series k4 := by
  simp [preRegisterMethod, foldCodes_lookup]

theorem preRegisterMethod_handled_hasKey_mem (m : ServerMetrics) (s : String)
    (mi : MethodInfo) (c : Code) (hc : c ∈ allCodes) :
    hasKey (preRegisterMethod m s mi).serverHandledCounter.series
      (typeFromMethodInfo mi, s, mi.Name, c) = true := by
  simp only [preRegisterMethod]
  exact foldCodes_hasKey_mem _ _ _ _ _ _ hc

theorem preRegisterMethod_handled_hasKey_mono (m : ServerMetrics) (s : String)
    (mi : MethodInfo) (k4 : Labels4)
    (h : hasKey m.serverHandledCounter.series k4 = true) :
    hasKey (preRegisterMethod m s mi).serverHandledCounter.series k4 = true := by
  simp only [preRegisterMethod]
  exact foldCodes_hasKey_mono _ _ _ _ _ _ h

theorem foldCodes_histOpts (t : grpcType) (s n : String) (codes : List Code)
    (metrics : ServerMetrics) :
    (codes.foldl (preRegisterCode t s n) metrics).serverHandledHistogramOpts
      = metrics.serverHandledHistogramOpts := by
  induction codes generalizing metrics with
  | nil => rfl
  | cons c rest ih =>
    rw [List.foldl_cons, ih]
    simp [preRegisterCode]

theorem preRegisterMethod_histOpts (m : ServerMetrics) (s : String) (mi : MethodInfo) :
    (preRegisterMethod m s mi).serverHandledHistogramOpts
      = m.serverHandledHistogramOpts := by
  simp [preRegisterMethod, foldCodes_histOpts]

/-- The state in which pre-registering method `mInfo` of service
`serviceName` is a no-op: every series the pre-registration references
already exists. -/
def preRegDone (metrics : ServerMetrics) (serviceName : String) (mInfo : MethodInfo) : Bool :=
  hasKey metrics.serverStartedCounter.series (typeFromMethodInfo mInfo, serviceName, mInfo.Name)
    && hasKey metrics.serverStreamMsgReceived.series (typeFromMethodInfo mInfo, serviceName, mInfo.Name)
    && hasKey metrics.serverStreamMsgSent.series (typeFromMethodInfo mInfo, serviceName, mInfo.Name)
    && (!metrics.serverHandledHistogramEnabled
        || optHistKeyOk metrics.serverHandledHistogram (typeFromMethodInfo mInfo, serviceName, mInfo.Name))
    && allCodes.all (fun c => hasKey metrics.serverHandledCounter.series
        (typeFromMethodInfo mInfo, serviceName, mInfo.Name, c))

theorem preRegisterMethod_done (m : ServerMetrics) (s : String) (mi : MethodInfo) :
    preRegDone (preRegisterMethod m s mi) s mi = true := by
  simp only [preRegDone, Bool.and_eq_true]
  refine ⟨⟨⟨⟨?_, ?_⟩, ?_⟩, ?_⟩, ?_⟩
  · simp [preRegisterMethod_started, hasKey_getOrCreate]
  · simp [preRegisterMethod_received, hasKey_getOrCreate]
  · simp [preRegisterMethod_sent, hasKey_getOrCreate]
  · rw [preRegisterMethod_histEnabled, preRegisterMethod_hist]
    by_cases he : m.serverHandledHistogramEnabled
    · cases hh : m.serverHandledHistogram with
      | none => simp [he, hh, optHistKeyOk]
      | some hv => simp [he, hh, optHistKeyOk, hasKey_getOrCreate]
    · simp [he]
  · simp only [List.all_eq_true]
    intro c hc
    simpa using preRegisterMethod_handled_hasKey_mem m s mi c hc

theorem preRegisterMethod_handled_of_done (m : ServerMetrics) (s : String)
    (mi : MethodInfo)
    (h : ∀ c ∈ allCodes, hasKey m.serverHandledCounter.series
      (typeFromMethodInfo mi, s, mi.Name, c) = true) :
    (preRegisterMethod m s mi).serverHandledCounter = m.serverHandledCounter := by
  simp only [preRegisterMethod]
  rw [foldCodes_id_of_done]
  exact fun c hc => h c hc

theorem ServerMetrics.ext7 {x y : ServerMetrics}
    (h1 : x.serverStartedCounter = y.serverStartedCounter)
    (h2 : x.serverHandledCounter = y.serverHandledCounter)
    (h3 : x.serverStreamMsgReceived = y.serverStreamMsgReceived)
    (h4 : x.serverStreamMsgSent = y.serverStreamMsgSent)
    (h5 : x.serverHandledHistogramEnabled = y.serverHandledHistogramEnabled)
    (h6 : x.serverHandledHistogramOpts = y.serverHandledHistogramOpts)
    (h7 : x.serverHandledHistogram = y.serverHandledHistogram) :
    x = y := by
  cases x
  cases y
  simp_all

theorem preRegisterMethod_id_of_done (m : ServerMetrics) (s : String) (mi : MethodInfo)
    (h : preRegDone m s mi = true) : preRegisterMethod m s mi = m := by
  simp only [preRegDone, Bool.and_eq_true, List.all_eq_true] at h
  obtain ⟨⟨⟨⟨h1, h2⟩, h3⟩, h4⟩, h5⟩ := h
  refine ServerMetrics.ext7 ?_ ?_ ?_ ?_ ?_ ?_ ?_
  · rw [preRegisterMethod_started, getOrCreate_of_hasKey _ _ h1]
  · exact preRegisterMethod_handled_of_done m s mi (fun c hc => h5 c hc)
  · rw [preRegisterMethod_received, getOrCreate_of_hasKey _ _ h2]
  · rw [preRegisterMethod_sent, getOrCreate_of_hasKey _ _ h3]
  · exact preRegisterMethod_histEnabled m s mi
  · exact preRegisterMethod_histOpts m s mi
  · rw [preRegisterMethod_hist]
    by_cases he : m.serverHandledHistogramEnabled
    · cases hh : m.serverHandledHistogram with
      | none => simp [he, hh]
      | some hv =>
        rw [he] at h4
        simp only [optHistKeyOk, hh] at h4
        simp [he, hh, getOrCreate_of_hasKey _ _ (by simpa using h4)]
    · simp [he]

theorem preRegisterMethod_idem (m : ServerMetrics) (s : String) (mi : MethodInfo) :
    preRegisterMethod (preRegisterMethod m s mi) s mi = preRegisterMethod m s mi :=
  preRegisterMethod_id_of_done _ s mi (preRegisterMethod_done m s mi)

theorem preRegDone_preserved (m : ServerMetrics) (s : String) (mi : MethodInfo)
    (s' : String) (mi' : MethodInfo)
    (h : preRegDone m s mi = true) :
    preRegDone (preRegisterMethod m s' mi') s mi = true := by
  simp only [preRegDone, Bool.and_eq_true, List.all_eq_true] at h ⊢
  obtain ⟨⟨⟨⟨h1, h2⟩, h3⟩, h4⟩, h5⟩ := h
  refine ⟨⟨⟨⟨?_, ?_⟩, ?_⟩, ?_⟩, ?_⟩
  · simp [preRegisterMethod_started, hasKey_getOrCreate, h1]
  · simp [preRegisterMethod_received, hasKey_getOrCreate, h2]
  · simp [preRegisterMethod_sent, hasKey_getOrCreate, h3]
  · rw [preRegisterMethod_histEnabled, preRegisterMethod_hist]
    by_cases he : m.serverHandledHistogramEnabled
    · rw [he] at h4
      cases hh : m.serverHandledHistogram with
      | none => simp [he, hh, optHistKeyOk]
      | some hv =>
        simp only [optHistKeyOk, hh] at h4
        simp only [Bool.not_true, Bool.false_or] at h4
        simp [he, hh, optHistKeyOk, hasKey_getOrCreate, h4]
    · simp [he]
  · intro c hc
    exact preRegisterMethod_handled_hasKey_mono m s' mi' _ (h5 c hc)

theorem registerServiceMethods_cons (s : String) (m : ServerMetrics)
    (mi : MethodInfo) (rest : List MethodInfo) :
    registerServiceMethods s m (mi :: rest)
      = registerServiceMethods s (preRegisterMethod m s mi) rest := rfl

theorem registerServiceMethods_preserves_done (s' : String) (m : ServerMetrics)
    (ms : List MethodInfo) (s : String) (mi : MethodInfo)
    (h : preRegDone m s mi = true) :
    preRegDone (registerServiceMethods s' m ms) s mi = true := by
  induction ms generalizing m with
  | nil => exact h
  | cons mi0 rest ih =>
    rw [registerServiceMethods_cons]
    exact ih _ (preRegDone_preserved m s mi s' mi0 h)

theorem registerServiceMethods_done_mem (s : String) (m : ServerMetrics)
    (ms : List MethodInfo) (mi : MethodInfo) (hm : mi ∈ ms) :
    preRegDone (registerServiceMethods s m ms) s mi = true := by
  induction ms generalizing m with
  | nil => cases hm
  | cons mi0 rest ih =>
    rw [registerServiceMethods_cons]
    rcases List.mem_cons.mp hm with h0 | h0
    · subst h0
      exact registerServiceMethods_preserves_done s _ rest s mi
        (preRegisterMethod_done m s mi)
    · exact ih _ h0

theorem registerServiceMethods_id_of_done (s : String) (m : ServerMetrics)
    (ms : List MethodInfo)
    (h : ∀ mi ∈ ms, preRegDone m s mi = true) :
    registerServiceMethods s m ms = m := by
  induction ms generalizing m with
  | nil => rfl
  | cons mi0 rest ih =>
    rw [registerServiceMethods_cons,
      preRegisterMethod_id_of_done m s mi0 (h mi0 (List.mem_cons_self mi0 rest))]
    exact ih m (fun mi hm => h mi (List.mem_cons_of_mem mi0 hm))

theorem InitializeMetrics_cons (m : ServerMetrics)
    (e : String × List MethodInfo) (rest : ServiceInfoMap) :
    ServerMetrics.InitializeMetrics m (e :: rest)
      = ServerMetrics.InitializeMetrics (registerServiceMethods e.1 m e.2) rest := rfl

theorem InitializeMetrics_preserves_done (m : ServerMetrics) (L : ServiceInfoMap)
    (s : String) (mi : MethodInfo)
    (h : preRegDone m s mi = true) :
    preRegDone (ServerMetrics.InitializeMetrics m L) s mi = true := by
  induction L generalizing m with
  | nil => exact h
  | cons e rest ih =>
    rw [InitializeMetrics_cons]
    exact ih _ (registerServiceMethods_preserves_done e.1 m e.2 s mi h)

theorem InitializeMetrics_done_mem (m : ServerMetrics) (L : ServiceInfoMap)
    (e : String × List MethodInfo) (he : e ∈ L) (mi : MethodInfo) (hm : mi ∈ e.2) :
    preRegDone (ServerMetrics.InitializeMetrics m L) e.1 mi = true := by
  induction L generalizing m with
  | nil => cases he
  | cons e0 rest ih =>
    rw [InitializeMetrics_cons]
    rcases List.mem_cons.mp he with h0 | h0
    · subst h0
      exact InitializeMetrics_preserves_done _ rest e.1 mi
        (registerServiceMethods_done_mem e.1 m e.2 mi hm)
    · exact ih _ h0

theorem InitializeMetrics_id_of_done (m : ServerMetrics) (L : ServiceInfoMap)
    (h : ∀ e ∈ L, ∀ mi ∈ e.2, preRegDone m e.1 mi = true) :
    ServerMetrics.InitializeMetrics m L = m := by
  induction L generalizing m with
  | nil => rfl
  | cons e0 rest ih =>
    rw [InitializeMetrics_cons,
      registerServiceMethods_id_of_done e0.1 m e0.2
        (fun mi hm => h e0 (List.mem_cons_self e0 rest) mi hm)]
    exact ih m (fun e he mi hm => h e (List.mem_cons_of_mem e0 he) mi hm)

theorem InitializeMetrics_idem (m : ServerMetrics) (L : ServiceInfoMap) :
    ServerMetrics.InitializeMetrics (ServerMetrics.InitializeMetrics m L) L
      = ServerMetrics.InitializeMetrics m L :=
  InitializeMetrics_id_of_done _ L
    (fun e he mi hm => InitializeMetrics_done_mem m L e he mi hm)

theorem obsCount_map_getOrCreate {α : Type} [DecidableEq α]
    (o : Option (HistogramVec α)) (k k' : α) :
    obsCount (o.map (fun h => { h with series := getOrCreate h.series k })) k'
      = obsCount o k' := by
  cases o with
  | none => rfl
  | some h => simp [obsCount, lookupVal_getOrCreate]

/-- The sequence of descriptors the Describe conditional for one optional
histogram contributes: the vector's descriptor when the flag is set and
the vector exists, nothing when the flag is clear. -/
def histDescList {α : Type} (enabled : Bool) (o : Option (HistogramVec α)) : List Desc :=
  if enabled then o.elim [] HistogramVec.describe else []

/-- The families the Collect conditional for one optional histogram
contributes. -/
def histFamList {α : Type} (enabled : Bool) (o : Option (HistogramVec α)) : List MetricFamily :=
  if enabled then o.elim [] HistogramVec.collect else []

theorem describeHist_of_ok {α : Type} (e : Bool) (o : Option (HistogramVec α))
    (h : e = true → o.isSome = true) :
    describeHist e o = some (histDescList e o) := by
  cases e with
  | false => simp [describeHist, histDescList]
  | true =>
    cases o with
    | none => simp at h
    | some v => simp [describeHist, histDescList]

theorem collectHist_of_ok {α : Type} (e : Bool) (o : Option (HistogramVec α))
    (h : e = true → o.isSome = true) :
    collectHist e o = some (histFamList e o) := by
  cases e with
  | false => simp [collectHist, histFamList]
  | true =>
    cases o with
    | none => simp at h
    | some v => simp [collectHist, histFamList]

theorem histFamList_desc {α : Type} (e : Bool) (o : Option (HistogramVec α)) :
    (histFamList e o).map MetricFamily.desc = histDescList e o := by
  cases e <;> cases o <;>
    simp [histFamList, histDescList, HistogramVec.collect, HistogramVec.describe]

/-- The invariant claim C10 is about, server side: an enabled handling-time
histogram flag implies the vector was assigned. -/
def ServerMetrics.histFlagsOk (m : ServerMetrics) : Prop :=
  m.serverHandledHistogramEnabled = true → m.serverHandledHistogram.isSome = true

/-- The invariant claim C10 is about, client side: each of the five
enabled-histogram flags implies its vector was assigned. -/
def ClientMetrics.histFlagsOk (m : ClientMetrics) : Prop :=
  (m.clientHandledHistogramEnabled = true → m.clientHandledHistogram.isSome = true)
    ∧ (m.clientStreamRecvHistogramEnabled = true → m.clientStreamRecvHistogram.isSome = true)
    ∧ (m.clientStreamSendHistogramEnabled = true → m.clientStreamSendHistogram.isSome = true)
    ∧ (m.clientMsgSizeReceivedHistogramEnabled = true → m.clientMsgSizeReceivedHistogram.isSome = true)
    ∧ (m.clientMsgSizeSentHistogramEnabled = true → m.clientMsgSizeSentHistogram.isSome = true)

theorem serverDescribe_of_ok (m : ServerMetrics) (h : m.histFlagsOk) :
    m.Describe = some (m.serverStartedCounter.describe ++ m.serverHandledCounter.describe
      ++ m.serverStreamMsgReceived.describe ++ m.serverStreamMsgSent.describe
      ++ histDescList m.serverHandledHistogramEnabled m.serverHandledHistogram) := by
  by_cases he : m.serverHandledHistogramEnabled
  · rcases Option.isSome_iff_exists.mp (h he) with ⟨v, hv⟩
    simp [ServerMetrics.Describe, histDescList, he, hv]
  · simp [ServerMetrics.Describe, histDescList, he]

theorem serverCollect_of_ok (m : ServerMetrics) (h : m.histFlagsOk) :
    m.Collect = some (m.serverStartedCounter.collect ++ m.serverHandledCounter.collect
      ++ m.serverStreamMsgReceived.collect ++ m.serverStreamMsgSent.collect
      ++ histFamList m.serverHandledHistogramEnabled m.serverHandledHistogram) := by
  by_cases he : m.serverHandledHistogramEnabled
  · rcases Option.isSome_iff_exists.mp (h he) with ⟨v, hv⟩
    simp [ServerMetrics.Collect, histFamList, he, hv]
  · simp [ServerMetrics.Collect, histFamList, he]

theorem clientDescribe_of_ok (m : ClientMetrics) (h : m.histFlagsOk) :
    m.Describe = some (m.clientStartedCounter.describe ++ m.clientHandledCounter.describe
      ++ m.clientStreamMsgReceived.describe ++ m.clientStreamMsgSent.describe
      ++ histDescList m.clientHandledHistogramEnabled m.clientHandledHistogram
      ++ histDescList m.clientStreamRecvHistogramEnabled m.clientStreamRecvHistogram
      ++ histDescList m.clientStreamSendHistogramEnabled m.clientStreamSendHistogram
      ++ histDescList m.clientMsgSizeReceivedHistogramEnabled m.clientMsgSizeReceivedHistogram
      ++ histDescList m.clientMsgSizeSentHistogramEnabled m.clientMsgSizeSentHistogram) := by
  obtain ⟨h1, h2, h3, h4, h5⟩ := h
  rw [ClientMetrics.Describe]
  rw [describeHist_of_ok _ _ h1, describeHist_of_ok _ _ h2, describeHist_of_ok _ _ h3,
    describeHist_of_ok _ _ h4, describeHist_of_ok _ _ h5]
  simp [List.append_assoc]

theorem clientCollect_of_ok (m : ClientMetrics) (h : m.histFlagsOk) :
    m.Collect = some (m.clientStartedCounter.collect ++ m.clientHandledCounter.collect
      ++ m.clientStreamMsgReceived.collect ++ m.clientStreamMsgSent.collect
      ++ histFamList m.clientHandledHistogramEnabled m.clientHandledHistogram
      ++ histFamList m.clientStreamRecvHistogramEnabled m.clientStreamRecvHistogram
      ++ histFamList m.clientStreamSendHistogramEnabled m.clientStreamSendHistogram
      ++ histFamList m.clientMsgSizeReceivedHistogramEnabled m.clientMsgSizeReceivedHistogram
      ++ histFamList m.clientMsgSizeSentHistogramEnabled m.clientMsgSizeSentHistogram) := by
  obtain ⟨h1, h2, h3, h4, h5⟩ := h
  rw [ClientMetrics.Collect]
  rw [collectHist_of_ok _ _ h1, collectHist_of_ok _ _ h2, collectHist_of_ok _ _ h3,
    collectHist_of_ok _ _ h4, collectHist_of_ok _ _ h5]
  simp [List.append_assoc]

theorem serverHandled_hist (r : serverReporter) (c : Code) (m : ServerMetrics) :
    (r.Handled c m).serverHandledHistogramEnabled = m.serverHandledHistogramEnabled
      ∧ (r.Handled c m).serverHandledHistogram.isSome
        = m.serverHandledHistogram.isSome := by
  refine ⟨rfl, ?_⟩
  simp only [serverReporter.Handled]
  cases m.serverHandledHistogram <;> split <;> simp

theorem serverHistFlagsOk_Handled (r : serverReporter) (c : Code) (m : ServerMetrics)
    (h : m.histFlagsOk) : (r.Handled c m).histFlagsOk := by
  intro he
  rw [(serverHandled_hist r c m).2]
  exact h ((serverHandled_hist r c m).1 ▸ he)

theorem clientHandled_hist (r : clientReporter) (c : Code) (m : ClientMetrics) :
    (r.Handled c m).clientHandledHistogramEnabled = m.clientHandledHistogramEnabled
      ∧ (r.Handled c m).clientHandledHistogram.isSome = m.clientHandledHistogram.isSome
      ∧ (r.Handled c m).clientStreamRecvHistogramEnabled = m.clientStreamRecvHistogramEnabled
      ∧ (r.Handled c m).clientStreamRecvHistogram = m.clientStreamRecvHistogram
      ∧ (r.Handled c m).clientStreamSendHistogramEnabled = m.clientStreamSendHistogramEnabled
      ∧ (r.Handled c m).clientStreamSendHistogram = m.clientStreamSendHistogram
      ∧ (r.Handled c m).clientMsgSizeReceivedHistogramEnabled = m.clientMsgSizeReceivedHistogramEnabled
      ∧ (r.Handled c m).clientMsgSizeReceivedHistogram = m.clientMsgSizeReceivedHistogram
      ∧ (r.Handled c m).clientMsgSizeSentHistogramEnabled = m.clientMsgSizeSentHistogramEnabled
      ∧ (r.Handled c m).clientMsgSizeSentHistogram = m.clientMsgSizeSentHistogram := by
  refine ⟨rfl, ?_, rfl, rfl, rfl, rfl, rfl, rfl, rfl, rfl⟩
  simp only [clientReporter.Handled]
  cases m.clientHandledHistogram <;> split <;> simp

theorem clientHistFlagsOk_Handled (r : clientReporter) (c : Code) (m : ClientMetrics)
    (h : m.histFlagsOk) : (r.Handled c m).histFlagsOk := by
  obtain ⟨h1, h2, h3, h4, h5⟩ := h
  have hh := clientHandled_hist r c m
  refine ⟨?_, ?_, ?_, ?_, ?_⟩
  · intro he
    rw [hh.2.1]
    exact h1 (hh.1 ▸ he)
  · intro he
    rw [hh.2.2.2.1]
    exact h2 (hh.2.2.1 ▸ he)
  · intro he
    rw [hh.2.2.2.2.2.1]
    exact h3 (hh.2.2.2.2.1 ▸ he)
  · intro he
    rw [hh.2.2.2.2.2.2.2.1]
    exact h4 (hh.2.2.2.2.2.2.1 ▸ he)
  · intro he
    rw [hh.2.2.2.2.2.2.2.2.2]
    exact h5 (hh.2.2.2.2.2.2.2.2.1 ▸ he)

theorem clientHistFlagsOk_run (r : clientReporter) (m : ClientMetrics)
    (evs : List StreamEvent) (h : m.histFlagsOk) :
    (runClientStream r m evs).histFlagsOk := by
  obtain ⟨h1, h2, h3, h4, h5⟩ := h
  have hf := runClientStream_flags r m evs
  refine ⟨?_, ?_, ?_, ?_, ?_⟩
  · intro he
    rw [hf.2.2.2.2.2.1]
    exact h1 (hf.1 ▸ he)
  · intro he
    rw [hf.2.2.2.2.2.2.1]
    exact h2 (hf.2.1 ▸ he)
  · intro he
    rw [hf.2.2.2.2.2.2.2.1]
    exact h3 (hf.2.2.1 ▸ he)
  · intro he
    rw [hf.2.2.2.2.2.2.2.2.1]
    exact h4 (hf.2.2.2.1 ▸ he)
  · intro he
    rw [hf.2.2.2.2.2.2.2.2.2]
    exact h5 (hf.2.2.2.2.1 ▸ he)

theorem preRegisterMethod_hist_isSome (m : ServerMetrics) (s : String) (mi : MethodInfo) :
    (preRegisterMethod m s mi).serverHandledHistogram.isSome
      = m.serverHandledHistogram.isSome := by
  rw [preRegisterMethod_hist]
  cases m.serverHandledHistogram <;> split <;> simp

theorem preRegisterMethod_histFlagsOk (m : ServerMetrics) (s : String) (mi : MethodInfo)
    (h : m.histFlagsOk) : (preRegisterMethod m s mi).histFlagsOk := by
  intro he
  rw [preRegisterMethod_hist_isSome]
  exact h (preRegisterMethod_histEnabled m s mi ▸ he)

theorem registerServiceMethods_histFlagsOk (s : String) (m : ServerMetrics)
    (ms : List MethodInfo) (h : m.histFlagsOk) :
    (registerServiceMethods s m ms).histFlagsOk := by
  induction ms generalizing m with
  | nil => exact h
  | cons mi rest ih =>
    rw [registerServiceMethods_cons]
    exact ih _ (preRegisterMethod_histFlagsOk m s mi h)

theorem InitializeMetrics_histFlagsOk (m : ServerMetrics) (L : ServiceInfoMap)
    (h : m.histFlagsOk) : (m.InitializeMetrics L).histFlagsOk := by
  induction L generalizing m with
  | nil => exact h
  | cons e rest ih =>
    rw [InitializeMetrics_cons]
    exact ih _ (registerServiceMethods_histFlagsOk e.1 m e.2 h)

theorem serverStream_histFlagsOk (r : serverReporter) (m : ServerMetrics)
    (evs : List StreamEvent) (h : m.histFlagsOk) :
    (runServerStream r m evs).histFlagsOk := by
  intro he
  have hr := runServerStream_rest r m evs
  rw [hr.2.2.2]
  exact h (hr.2.2.1 ▸ he)

/-- Claim C2 (counterexample): the claim states that a descriptor with both
streaming flags false yields the Unary shape; on the code, both shape
derivation functions yield BidiStream for that input, not Unary. -/
theorem claim_C2_counterexample :
    clientStreamType ⟨false, false⟩ = grpcType.BidiStream
      ∧ streamRpcType ⟨false, false⟩ = grpcType.BidiStream
      ∧ ¬ clientStreamType ⟨false, false⟩ = grpcType.Unary
      ∧ ¬ streamRpcType ⟨false, false⟩ = grpcType.Unary := by
  decide

/-- Claim C2 (amended): client-streaming only yields ClientStream,
server-streaming only yields ServerStream, both flags set yields
BidiStream, and both flags clear also yields BidiStream (never Unary);
the client-side and server-side derivation functions agree on every flag
combination. -/
theorem claim_C2 :
    (∀ cs ss : Bool, clientStreamType ⟨cs, ss⟩ = streamRpcType ⟨cs, ss⟩)
      ∧ clientStreamType ⟨true, false⟩ = grpcType.ClientStream
      ∧ clientStreamType ⟨false, true⟩ = grpcType.ServerStream
      ∧ clientStreamType ⟨true, true⟩ = grpcType.BidiStream
      ∧ clientStreamType ⟨false, false⟩ = grpcType.BidiStream
      ∧ streamRpcType ⟨true, false⟩ = grpcType.ClientStream
      ∧ streamRpcType ⟨false, true⟩ = grpcType.ServerStream
      ∧ streamRpcType ⟨true, true⟩ = grpcType.BidiStream
      ∧ streamRpcType ⟨false, false⟩ = grpcType.BidiStream := by
  decide

/-- Claim C7: each Enable*Histogram operation, on its first call,
instantiates the histogram vector from the options accumulated so far
(the fresh vector, with empty child table, built from the updated opts)
and sets the enabled flag; once the flag is set, a later call leaves the
instantiated vector untouched, whatever options it passes.  Stated for
all six Enable operations of the two registries. -/
theorem claim_C7 :
    (∀ (m : ServerMetrics) (opts : List HistogramOption),
      (m.EnableHandlingTimeHistogram opts).serverHandledHistogram
        = (if m.serverHandledHistogramEnabled then m.serverHandledHistogram
           else some (NewHistogramVec
             (applyHistogramOptions opts m.serverHandledHistogramOpts)
             ["grpc_type", "grpc_service", "grpc_method"]))
      ∧ (m.EnableHandlingTimeHistogram opts).serverHandledHistogramEnabled = true
      ∧ ∀ opts2, ((m.EnableHandlingTimeHistogram opts).EnableHandlingTimeHistogram opts2).serverHandledHistogram
          = (m.EnableHandlingTimeHistogram opts).serverHandledHistogram)
    ∧ (∀ (m : ClientMetrics) (opts : List HistogramOption),
      (m.EnableClientHandlingTimeHistogram opts).clientHandledHistogram
        = (if m.clientHandledHistogramEnabled then m.clientHandledHistogram
           else some (NewHistogramVec
             (applyHistogramOptions opts m.clientHandledHistogramOpts)
             ["grpc_type", "grpc_service", "grpc_method"]))
      ∧ (m.EnableClientHandlingTimeHistogram opts).clientHandledHistogramEnabled = true
      ∧ ∀ opts2, ((m.EnableClientHandlingTimeHistogram opts).EnableClientHandlingTimeHistogram opts2).clientHandledHistogram
          = (m.EnableClientHandlingTimeHistogram opts).clientHandledHistogram)
    ∧ (∀ (m : ClientMetrics) (opts : List HistogramOption),
      (m.EnableClientStreamReceiveTimeHistogram opts).clientStreamRecvHistogram
        = (if m.clientStreamRecvHistogramEnabled then m.clientStreamRecvHistogram
           else some (NewHistogramVec
             (applyHistogramOptions opts m.clientStreamRecvHistogramOpts)
             ["grpc_type", "grpc_service", "grpc_method"]))
      ∧ (m.EnableClientStreamReceiveTimeHistogram opts).clientStreamRecvHistogramEnabled = true
      ∧ ∀ opts2, ((m.EnableClientStreamReceiveTimeHistogram opts).EnableClientStreamReceiveTimeHistogram opts2).clientStreamRecvHistogram
          = (m.EnableClientStreamReceiveTimeHistogram opts).clientStreamRecvHistogram)
    ∧ (∀ (m : ClientMetrics) (opts : List HistogramOption),
      (m.EnableClientStreamSendTimeHistogram opts).clientStreamSendHistogram
        = (if m.clientStreamSendHistogramEnabled then m.clientStreamSendHistogram
           else some (NewHistogramVec
             (applyHistogramOptions opts m.clientStreamSendHistogramOpts)
             ["grpc_type", "grpc_service", "grpc_method"]))
      ∧ (m.EnableClientStreamSendTimeHistogram opts).clientStreamSendHistogramEnabled = true
      ∧ ∀ opts2, ((m.EnableClientStreamSendTimeHistogram opts).EnableClientStreamSendTimeHistogram opts2).clientStreamSendHistogram
          = (m.EnableClientStreamSendTimeHistogram opts).clientStreamSendHistogram)
    ∧ (∀ (m : ClientMetrics) (opts : List HistogramOption),
      (m.EnableMsgSizeReceivedBytesHistogram opts).clientMsgSizeReceivedHistogram
        = (if m.clientMsgSizeReceivedHistogramEnabled then m.clientMsgSizeReceivedHistogram
           else some (NewHistogramVec
             (applyHistogramOptions opts m.clientMsgSizeReceivedHistogramOpts)
             ["grpc_service", "grpc_method", "grpc_stats"]))
      ∧ (m.EnableMsgSizeReceivedBytesHistogram opts).clientMsgSizeReceivedHistogramEnabled = true
      ∧ ∀ opts2, ((m.EnableMsgSizeReceivedBytesHistogram opts).EnableMsgSizeReceivedBytesHistogram opts2).clientMsgSizeReceivedHistogram
          = (m.EnableMsgSizeReceivedBytesHistogram opts).clientMsgSizeReceivedHistogram)
    ∧ (∀ (m : ClientMetrics) (opts : List HistogramOption),
      (m.EnableMsgSizeSentBytesHistogram opts).clientMsgSizeSentHistogram
        = (if m.clientMsgSizeSentHistogramEnabled then m.clientMsgSizeSentHistogram
           else some (NewHistogramVec
             (applyHistogramOptions opts m.clientMsgSizeSentHistogramOpts)
             ["grpc_service", "grpc_method", "grpc_stats"]))
      ∧ (m.EnableMsgSizeSentBytesHistogram opts).clientMsgSizeSentHistogramEnabled = true
      ∧ ∀ opts2, ((m.EnableMsgSizeSentBytesHistogram opts).EnableMsgSizeSentBytesHistogram opts2).clientMsgSizeSentHistogram
          = (m.EnableMsgSizeSentBytesHistogram opts).clientMsgSizeSentHistogram) := by
  refine ⟨?_, ?_, ?_, ?_, ?_, ?_⟩ <;>
    intro m opts <;>
    refine ⟨?_, rfl, ?_⟩
  · by_cases he : m.serverHandledHistogramEnabled <;>
      simp [ServerMetrics.EnableHandlingTimeHistogram, he]
  · intro opts2
    by_cases he : m.serverHandledHistogramEnabled <;>
      simp [ServerMetrics.EnableHandlingTimeHistogram, he]
  · by_cases he : m.clientHandledHistogramEnabled <;>
      simp [ClientMetrics.EnableClientHandlingTimeHistogram, he]
  · intro opts2
    by_cases he : m.clientHandledHistogramEnabled <;>
      simp [ClientMetrics.EnableClientHandlingTimeHistogram, he]
  · by_cases he : m.clientStreamRecvHistogramEnabled <;>
      simp [ClientMetrics.EnableClientStreamReceiveTimeHistogram, he]
  · intro opts2
    by_cases he : m.clientStreamRecvHistogramEnabled <;>
      simp [ClientMetrics.EnableClientStreamReceiveTimeHistogram, he]
  · by_cases he : m.clientStreamSendHistogramEnabled <;>
      simp [ClientMetrics.EnableClientStreamSendTimeHistogram, he]
  · intro opts2
    by_cases he : m.clientStreamSendHistogramEnabled <;>
      simp [ClientMetrics.EnableClientStreamSendTimeHistogram, he]
  · by_cases he : m.clientMsgSizeReceivedHistogramEnabled <;>
      simp [ClientMetrics.EnableMsgSizeReceivedBytesHistogram, he]
  · intro opts2
    by_cases he : m.clientMsgSizeReceivedHistogramEnabled <;>
      simp [ClientMetrics.EnableMsgSizeReceivedBytesHistogram, he]
  · by_cases he : m.clientMsgSizeSentHistogramEnabled <;>
      simp [ClientMetrics.EnableMsgSizeSentBytesHistogram, he]
  · intro opts2
    by_cases he : m.clientMsgSizeSentHistogramEnabled <;>
      simp [ClientMetrics.EnableMsgSizeSentBytesHistogram, he]

/-- Claim C5: the unary client interceptor records the sent message
(unconditionally, before invoking), records a received message only when
the invoker returns a nil error, invokes Handled with the code extracted
from the returned error (OK for nil, the carried code for a status error,
Unknown for an error without status), and returns the invoker's error
unmodified. -/
theorem claim_C5 :
    ∀ (m : ClientMetrics) (svc meth : String) (err : Option GoErr),
      (m.UnaryClientInterceptor svc meth err).2 = err
      ∧ (∀ k : Labels3,
          lookupVal (m.UnaryClientInterceptor svc meth err).1.clientStreamMsgSent.series k
            = lookupVal m.clientStreamMsgSent.series k
              + (if k = (grpcType.Unary, svc, meth) then 1 else 0))
      ∧ (∀ k : Labels3,
          lookupVal (m.UnaryClientInterceptor svc meth err).1.clientStreamMsgReceived.series k
            = lookupVal m.clientStreamMsgReceived.series k
              + (if err = none ∧ k = (grpcType.Unary, svc, meth) then 1 else 0))
      ∧ (∀ k4 : Labels4,
          lookupVal (m.UnaryClientInterceptor svc meth err).1.clientHandledCounter.series k4
            = lookupVal m.clientHandledCounter.series k4
              + (if k4 = (grpcType.Unary, svc, meth, status_Code err) then 1 else 0))
      ∧ status_Code none = Code.OK
      ∧ status_Code (some GoErr.plain) = Code.Unknown := by
  intro m svc meth err
  refine ⟨rfl, ?_, ?_, ?_, rfl, rfl⟩
  · intro k
    by_cases he : err = none <;>
      simp [ClientMetrics.UnaryClientInterceptor, newClientReporter,
        clientReporter.SentMessage, clientReporter.ReceivedMessage,
        clientReporter.Handled, clientReporter.labels3, lookupVal_incAt, he]
  · intro k
    by_cases he : err = none <;>
      simp [ClientMetrics.UnaryClientInterceptor, newClientReporter,
        clientReporter.SentMessage, clientReporter.ReceivedMessage,
        clientReporter.Handled, clientReporter.labels3, lookupVal_incAt, he]
  · intro k4
    by_cases he : err = none <;>
      simp [ClientMetrics.UnaryClientInterceptor, newClientReporter,
        clientReporter.SentMessage, clientReporter.ReceivedMessage,
        clientReporter.Handled, clientReporter.labels3, lookupVal_incAt, he]

/-- Claim C4 (counterexample): on a unary client call whose invoker fails
with a NOT_FOUND status, the claim says the sent-messages counter stays
at 0; on the code the counter reads 1, because the client interceptor
records the sent message before invoking. -/
theorem claim_C4_counterexample :
    lookupVal ((NewClientMetrics []).UnaryClientInterceptor "svc" "m"
        (some (GoErr.statusErr Code.NotFound))).1.clientStreamMsgSent.series
      (grpcType.Unary, "svc", "m") = 1
    ∧ ¬ lookupVal ((NewClientMetrics []).UnaryClientInterceptor "svc" "m"
        (some (GoErr.statusErr Code.NotFound))).1.clientStreamMsgSent.series
      (grpcType.Unary, "svc", "m") = 0 := by
  decide

/-- Claim C4 (amended): on a unary call whose handler/invoker fails with a
NOT_FOUND status, the handled counter for (Unary, service, method,
NOT_FOUND) increments by exactly 1 in both interceptor paths; the server
sent-messages counter is untouched (the server sends only after success),
while the client sent-messages counter increments by exactly 1, because
the client records the send before invoking. -/
theorem claim_C4 :
    ∀ (ms : ServerMetrics) (mc : ClientMetrics) (svc meth : String),
      (∀ k4 : Labels4,
        lookupVal (ms.UnaryServerInterceptor svc meth ()
            (some (GoErr.statusErr Code.NotFound))).1.serverHandledCounter.series k4
          = lookupVal ms.serverHandledCounter.series k4
            + (if k4 = (grpcType.Unary, svc, meth, Code.NotFound) then 1 else 0))
      ∧ (ms.UnaryServerInterceptor svc meth ()
          (some (GoErr.statusErr Code.NotFound))).1.serverStreamMsgSent
        = ms.serverStreamMsgSent
      ∧ (∀ k4 : Labels4,
        lookupVal (mc.UnaryClientInterceptor svc meth
            (some (GoErr.statusErr Code.NotFound))).1.clientHandledCounter.series k4
          = lookupVal mc.clientHandledCounter.series k4
            + (if k4 = (grpcType.Unary, svc, meth, Code.NotFound) then 1 else 0))
      ∧ (∀ k : Labels3,
        lookupVal (mc.UnaryClientInterceptor svc meth
            (some (GoErr.statusErr Code.NotFound))).1.clientStreamMsgSent.series k
          = lookupVal mc.clientStreamMsgSent.series k
            + (if k = (grpcType.Unary, svc, meth) then 1 else 0))
      ∧ (mc.UnaryClientInterceptor svc meth
          (some (GoErr.statusErr Code.NotFound))).1.clientStreamMsgReceived
        = mc.clientStreamMsgReceived := by
  intro ms mc svc meth
  refine ⟨?_, ?_, ?_, ?_, ?_⟩
  · intro k4
    simp [ServerMetrics.UnaryServerInterceptor, newServerReporter,
      serverReporter.ReceivedMessage, serverReporter.SentMessage,
      serverReporter.Handled, serverReporter.labels3, grpc_Code, lookupVal_incAt]
  · simp [ServerMetrics.UnaryServerInterceptor, newServerReporter,
      serverReporter.ReceivedMessage, serverReporter.SentMessage,
      serverReporter.Handled, serverReporter.labels3, grpc_Code]
  · intro k4
    simp [ClientMetrics.UnaryClientInterceptor, newClientReporter,
      clientReporter.SentMessage, clientReporter.ReceivedMessage,
      clientReporter.Handled, clientReporter.labels3, status_Code, lookupVal_incAt]
  · intro k
    simp [ClientMetrics.UnaryClientInterceptor, newClientReporter,
      clientReporter.SentMessage, clientReporter.ReceivedMessage,
      clientReporter.Handled, clientReporter.labels3, lookupVal_incAt]
  · simp [ClientMetrics.UnaryClientInterceptor, newClientReporter,
      clientReporter.SentMessage, clientReporter.ReceivedMessage,
      clientReporter.Handled, clientReporter.labels3]

/-- Claim C3 (counterexample): two successive RecvMsg calls on a decorated
client stream, both answered with io.EOF by the underlying stream, invoke
the reporter's Handled twice — the handled counter for the stream's tuple
with code OK reads 2, not at most 1 as the claim states. -/
theorem claim_C3_counterexample :
    lookupVal (runClientRecvs ⟨grpcType.BidiStream, "svc", "m"⟩ (NewClientMetrics [])
        [some GoErr.eof, some GoErr.eof]).clientHandledCounter.series
      (grpcType.BidiStream, "svc", "m", Code.OK) = 2
    ∧ ¬ lookupVal (runClientRecvs ⟨grpcType.BidiStream, "svc", "m"⟩ (NewClientMetrics [])
        [some GoErr.eof, some GoErr.eof]).clientHandledCounter.series
      (grpcType.BidiStream, "svc", "m", Code.OK) ≤ 1 := by
  decide

/-- Claim C3 (amended): the decorated client stream invokes Handled once
per RecvMsg call whose underlying read returns a non-nil error (io.EOF
maps to code OK, any other error to its extracted code); it does not
guard against repetition, so over a sequence of reads the handled counter
for (tuple, c) grows by exactly the number of reads whose result maps to
c — at most one only when at most one read returns an error. -/
theorem claim_C3 :
    ∀ (r : clientReporter) (m : ClientMetrics) (results : List (Option GoErr)) (c : Code),
      lookupVal (runClientRecvs r m results).clientHandledCounter.series
          (r.rpcType, r.serviceName, r.methodName, c)
        = lookupVal m.clientHandledCounter.series
            (r.rpcType, r.serviceName, r.methodName, c)
          + results.countP (fun e => decide (recvHandledCode e = some c)) := by
  intro r m results c
  induction results generalizing m with
  | nil => simp [runClientRecvs]
  | cons e rest ih =>
    have hcons : runClientRecvs r m (e :: rest)
        = runClientRecvs r ((monitoredClientStream.RecvMsg r m e).1) rest := rfl
    rw [hcons, ih,
      show (monitoredClientStream.RecvMsg r m e).1
          = clientStreamStep r m (StreamEvent.recvMsg e) from rfl,
      clientStreamStep_handled]
    simp [countHandledWith, eventHandledCode, List.countP_cons]
    omega

theorem runServerStream_started (r : serverReporter) (m : ServerMetrics)
    (evs : List StreamEvent) :
    (runServerStream r m evs).serverStartedCounter = m.serverStartedCounter :=
  (runServerStream_rest r m evs).1

theorem runServerStream_handledCounter (r : serverReporter) (m : ServerMetrics)
    (evs : List StreamEvent) :
    (runServerStream r m evs).serverHandledCounter = m.serverHandledCounter :=
  (runServerStream_rest r m evs).2.1

theorem serverHandled_lookup (r : serverReporter) (c : Code) (m : ServerMetrics)
    (k4 : Labels4) :
    lookupVal (r.Handled c m).serverHandledCounter.series k4
      = lookupVal m.serverHandledCounter.series k4
        + (if k4 = (r.rpcType, r.serviceName, r.methodName, c) then 1 else 0) := by
  simp [serverReporter.Handled, lookupVal_incAt]

theorem clientHandled_lookup (r : clientReporter) (c : Code) (m : ClientMetrics)
    (k4 : Labels4) :
    lookupVal (r.Handled c m).clientHandledCounter.series k4
      = lookupVal m.clientHandledCounter.series k4
        + (if k4 = (r.rpcType, r.serviceName, r.methodName, c) then 1 else 0) := by
  simp [clientReporter.Handled, lookupVal_incAt]

theorem runClientStream_handledCounterAt (t : grpcType) (s n : String)
    (m : ClientMetrics) (evs : List StreamEvent) (c : Code) :
    lookupVal (runClientStream ⟨t, s, n⟩ m evs).clientHandledCounter.series (t, s, n, c)
      = lookupVal m.clientHandledCounter.series (t, s, n, c)
        + countHandledWith evs c :=
  runClientStream_handled ⟨t, s, n⟩ m evs c

/-- Claim C6: on a decorated stream (server or client), the sent and
received counters for the stream's tuple grow by exactly the number of
successful sends and receives (failures do not count), and on the client
side the per-message send/receive latency histograms — when enabled and
instantiated — record one observation per attempt, successful or not. -/
theorem claim_C6 :
    (∀ (r : serverReporter) (m : ServerMetrics) (evs : List StreamEvent) (k : Labels3),
      lookupVal (runServerStream r m evs).serverStreamMsgSent.series k
        = lookupVal m.serverStreamMsgSent.series k
          + (if k = r.labels3 then countSuccessfulSends evs else 0))
    ∧ (∀ (r : serverReporter) (m : ServerMetrics) (evs : List StreamEvent) (k : Labels3),
      lookupVal (runServerStream r m evs).serverStreamMsgReceived.series k
        = lookupVal m.serverStreamMsgReceived.series k
          + (if k = r.labels3 then countSuccessfulRecvs evs else 0))
    ∧ (∀ (r : clientReporter) (m : ClientMetrics) (evs : List StreamEvent) (k : Labels3),
      lookupVal (runClientStream r m evs).clientStreamMsgSent.series k
        = lookupVal m.clientStreamMsgSent.series k
          + (if k = r.labels3 then countSuccessfulSends evs else 0))
    ∧ (∀ (r : clientReporter) (m : ClientMetrics) (evs : List StreamEvent) (k : Labels3),
      lookupVal (runClientStream r m evs).clientStreamMsgReceived.series k
        = lookupVal m.clientStreamMsgReceived.series k
          + (if k = r.labels3 then countSuccessfulRecvs evs else 0))
    ∧ (∀ (r : clientReporter) (m : ClientMetrics) (evs : List StreamEvent) (k : Labels3),
      obsCount (runClientStream r m evs).clientStreamSendHistogram k
        = obsCount m.clientStreamSendHistogram k
          + (if m.clientStreamSendHistogramEnabled
                && m.clientStreamSendHistogram.isSome
                && decide (k = r.labels3) then countSends evs else 0))
    ∧ (∀ (r : clientReporter) (m : ClientMetrics) (evs : List StreamEvent) (k : Labels3),
      obsCount (runClientStream r m evs).clientStreamRecvHistogram k
        = obsCount m.clientStreamRecvHistogram k
          + (if m.clientStreamRecvHistogramEnabled
                && m.clientStreamRecvHistogram.isSome
                && decide (k = r.labels3) then countRecvs evs else 0)) :=
  ⟨runServerStream_sent, runServerStream_received,
   runClientStream_sent, runClientStream_received,
   runClientStream_sendHistObs, runClientStream_recvHistObs⟩

/-- Claim C1 (counterexample): a streaming client call whose stream is
established successfully and on which the application never performs a
read (or abandons the stream) never invokes the reporter's terminal
Handled — the handled counter table stays empty — although the started
counter was incremented; so Handled is not invoked exactly once on every
exit path of every adapter. -/
theorem claim_C1_counterexample :
    (runStreamClientRpc (NewClientMetrics []) ⟨true, true⟩ "svc" "m" none
        []).clientHandledCounter.series = ([] : CVec Labels4)
    ∧ lookupVal (runStreamClientRpc (NewClientMetrics []) ⟨true, true⟩ "svc" "m" none
        []).clientStartedCounter.series (grpcType.BidiStream, "svc", "m") = 1 := by
  decide

/-- Claim C1 (amended): the started counter is incremented exactly once
per intercepted call in all four adapters.  Handled is invoked exactly
once per call by the unary server, streaming server and unary client
adapters on every exit path, and by the streaming client adapter when
stream establishment fails; when establishment succeeds, the terminal
call is deferred to the stream decorator, which invokes Handled once per
read that observes end-of-stream or an error — zero or several times over
the stream's lifetime, not exactly once. -/
theorem claim_C1 :
    (∀ (ms : ServerMetrics) (svc meth : String) (err : Option GoErr) (k : Labels3),
      lookupVal (ms.UnaryServerInterceptor svc meth () err).1.serverStartedCounter.series k
        = lookupVal ms.serverStartedCounter.series k
          + (if k = (grpcType.Unary, svc, meth) then 1 else 0))
    ∧ (∀ (ms : ServerMetrics) (svc meth : String) (err : Option GoErr) (k4 : Labels4),
      lookupVal (ms.UnaryServerInterceptor svc meth () err).1.serverHandledCounter.series k4
        = lookupVal ms.serverHandledCounter.series k4
          + (if k4 = (grpcType.Unary, svc, meth, grpc_Code err) then 1 else 0))
    ∧ (∀ (ms : ServerMetrics) (info : StreamServerInfo) (svc meth : String)
        (evs : List StreamEvent) (err : Option GoErr) (k : Labels3),
      lookupVal (ms.StreamServerInterceptor info svc meth evs err).1.serverStartedCounter.series k
        = lookupVal ms.serverStartedCounter.series k
          + (if k = (streamRpcType info, svc, meth) then 1 else 0))
    ∧ (∀ (ms : ServerMetrics) (info : StreamServerInfo) (svc meth : String)
        (evs : List StreamEvent) (err : Option GoErr) (k4 : Labels4),
      lookupVal (ms.StreamServerInterceptor info svc meth evs err).1.serverHandledCounter.series k4
        = lookupVal ms.serverHandledCounter.series k4
          + (if k4 = (streamRpcType info, svc, meth, grpc_Code err) then 1 else 0))
    ∧ (∀ (mc : ClientMetrics) (svc meth : String) (err : Option GoErr) (k : Labels3),
      lookupVal (mc.UnaryClientInterceptor svc meth err).1.clientStartedCounter.series k
        = lookupVal mc.clientStartedCounter.series k
          + (if k = (grpcType.Unary, svc, meth) then 1 else 0))
    ∧ (∀ (mc : ClientMetrics) (svc meth : String) (err : Option GoErr) (k4 : Labels4),
      lookupVal (mc.UnaryClientInterceptor svc meth err).1.clientHandledCounter.series k4
        = lookupVal mc.clientHandledCounter.series k4
          + (if k4 = (grpcType.Unary, svc, meth, status_Code err) then 1 else 0))
    ∧ (∀ (mc : ClientMetrics) (desc : StreamDesc) (svc meth : String)
        (streamerErr : Option GoErr) (evs : List StreamEvent) (k : Labels3),
      lookupVal (runStreamClientRpc mc desc svc meth streamerErr evs).clientStartedCounter.series k
        = lookupVal mc.clientStartedCounter.series k
          + (if k = (clientStreamType desc, svc, meth) then 1 else 0))
    ∧ (∀ (mc : ClientMetrics) (desc : StreamDesc) (svc meth : String)
        (ge : GoErr) (evs : List StreamEvent) (k4 : Labels4),
      lookupVal (runStreamClientRpc mc desc svc meth (some ge) evs).clientHandledCounter.series k4
        = lookupVal mc.clientHandledCounter.series k4
          + (if k4 = (clientStreamType desc, svc, meth, status_Code (some ge)) then 1 else 0))
    ∧ (∀ (mc : ClientMetrics) (desc : StreamDesc) (svc meth : String)
        (evs : List StreamEvent) (c : Code),
      lookupVal (runStreamClientRpc mc desc svc meth none evs).clientHandledCounter.series
          (clientStreamType desc, svc, meth, c)
        = lookupVal mc.clientHandledCounter.series (clientStreamType desc, svc, meth, c)
          + countHandledWith evs c) := by
  refine ⟨?_, ?_, ?_, ?_, ?_, ?_, ?_, ?_, ?_⟩
  · intro ms svc meth err k
    by_cases he : err = none <;>
      simp [ServerMetrics.UnaryServerInterceptor, newServerReporter,
        serverReporter.ReceivedMessage, serverReporter.SentMessage,
        serverReporter.Handled, serverReporter.labels3, lookupVal_incAt, he]
  · intro ms svc meth err k4
    by_cases he : err = none <;>
      simp [ServerMetrics.UnaryServerInterceptor, newServerReporter,
        serverReporter.ReceivedMessage, serverReporter.SentMessage,
        serverReporter.Handled, serverReporter.labels3, lookupVal_incAt, he]
  · intro ms info svc meth evs err k
    simp [ServerMetrics.StreamServerInterceptor, serverReporter.Handled,
      runServerStream_started, newServerReporter, serverReporter.labels3,
      lookupVal_incAt]
  · intro ms info svc meth evs err k4
    simp [ServerMetrics.StreamServerInterceptor, serverHandled_lookup,
      runServerStream_handledCounter, newServerReporter, serverReporter.labels3,
      lookupVal_incAt]
  · intro mc svc meth err k
    by_cases he : err = none <;>
      simp [ClientMetrics.UnaryClientInterceptor, newClientReporter,
        clientReporter.SentMessage, clientReporter.ReceivedMessage,
        clientReporter.Handled, clientReporter.labels3, lookupVal_incAt, he]
  · intro mc svc meth err k4
    by_cases he : err = none <;>
      simp [ClientMetrics.UnaryClientInterceptor, newClientReporter,
        clientReporter.SentMessage, clientReporter.ReceivedMessage,
        clientReporter.Handled, clientReporter.labels3, lookupVal_incAt, he]
  · intro mc desc svc meth streamerErr evs k
    cases streamerErr with
    | none =>
      simp [runStreamClientRpc, ClientMetrics.StreamClientInterceptor,
        runClientStream_started, newClientReporter, clientReporter.labels3,
        lookupVal_incAt]
    | some ge =>
      simp [runStreamClientRpc, ClientMetrics.StreamClientInterceptor,
        clientReporter.Handled, newClientReporter, clientReporter.labels3,
        lookupVal_incAt]
  · intro mc desc svc meth ge evs k4
    simp [runStreamClientRpc, ClientMetrics.StreamClientInterceptor,
      clientHandled_lookup, newClientReporter, clientReporter.labels3,
      lookupVal_incAt]
  · intro mc desc svc meth evs c
    simp [runStreamClientRpc, ClientMetrics.StreamClientInterceptor,
      runClientStream_handledCounterAt, newClientReporter, clientReporter.labels3]

/-- Claim C9: pre-registering a method references — without incrementing —
the started counter, both message counters, the handling-time histogram
exactly when it is enabled, and the handled counter for every known
status code: no series value changes anywhere, the referenced series
exist (zero-valued) afterwards, and pre-registration is idempotent, both
per method and for a whole service enumeration. -/
theorem claim_C9 :
    ∀ (m : ServerMetrics) (s : String) (mi : MethodInfo),
      (∀ k : Labels3, lookupVal (preRegisterMethod m s mi).serverStartedCounter.series k
        = lookupVal m.serverStartedCounter.series k)
      ∧ (∀ k : Labels3, lookupVal (preRegisterMethod m s mi).serverStreamMsgReceived.series k
        = lookupVal m.serverStreamMsgReceived.series k)
      ∧ (∀ k : Labels3, lookupVal (preRegisterMethod m s mi).serverStreamMsgSent.series k
        = lookupVal m.serverStreamMsgSent.series k)
      ∧ (∀ k4 : Labels4, lookupVal (preRegisterMethod m s mi).serverHandledCounter.series k4
        = lookupVal m.serverHandledCounter.series k4)
      ∧ (∀ k : Labels3, obsCount (preRegisterMethod m s mi).serverHandledHistogram k
        = obsCount m.serverHandledHistogram k)
      ∧ hasKey (preRegisterMethod m s mi).serverStartedCounter.series
          (typeFromMethodInfo mi, s, mi.Name) = true
      ∧ hasKey (preRegisterMethod m s mi).serverStreamMsgReceived.series
          (typeFromMethodInfo mi, s, mi.Name) = true
      ∧ hasKey (preRegisterMethod m s mi).serverStreamMsgSent.series
          (typeFromMethodInfo mi, s, mi.Name) = true
      ∧ allCodes.all (fun c => hasKey (preRegisterMethod m s mi).serverHandledCounter.series
          (typeFromMethodInfo mi, s, mi.Name, c)) = true
      ∧ (preRegisterMethod m s mi).serverHandledHistogramEnabled
          = m.serverHandledHistogramEnabled
      ∧ histHasKey (preRegisterMethod m s mi).serverHandledHistogram
          (typeFromMethodInfo mi, s, mi.Name)
        = ((m.serverHandledHistogramEnabled && m.serverHandledHistogram.isSome)
           || histHasKey m.serverHandledHistogram (typeFromMethodInfo mi, s, mi.Name))
      ∧ ((preRegisterMethod m s mi).serverHandledHistogram = m.serverHandledHistogram
         ∨ m.serverHandledHistogramEnabled = true)
      ∧ preRegisterMethod (preRegisterMethod m s mi) s mi = preRegisterMethod m s mi
      ∧ (∀ L : ServiceInfoMap,
          ServerMetrics.InitializeMetrics (ServerMetrics.InitializeMetrics m L) L
            = ServerMetrics.InitializeMetrics m L) := by
  intro m s mi
  refine ⟨?_, ?_, ?_, ?_, ?_, ?_, ?_, ?_, ?_, ?_, ?_, ?_, ?_, ?_⟩
  · intro k
    rw [preRegisterMethod_started]
    simp [lookupVal_getOrCreate]
  · intro k
    rw [preRegisterMethod_received]
    simp [lookupVal_getOrCreate]
  · intro k
    rw [preRegisterMethod_sent]
    simp [lookupVal_getOrCreate]
  · intro k4
    exact preRegisterMethod_handled_lookup m s mi k4
  · intro k
    rw [preRegisterMethod_hist]
    by_cases he : m.serverHandledHistogramEnabled <;>
      simp [he, obsCount_map_getOrCreate]
  · rw [preRegisterMethod_started]
    simp [hasKey_getOrCreate]
  · rw [preRegisterMethod_received]
    simp [hasKey_getOrCreate]
  · rw [preRegisterMethod_sent]
    simp [hasKey_getOrCreate]
  · simp only [List.all_eq_true]
    intro c hc
    simpa using preRegisterMethod_handled_hasKey_mem m s mi c hc
  · exact preRegisterMethod_histEnabled m s mi
  · rw [preRegisterMethod_hist]
    by_cases he : m.serverHandledHistogramEnabled
    · cases hh : m.serverHandledHistogram with
      | none => simp [he, hh, histHasKey]
      | some hv => simp [he, hh, histHasKey, hasKey_getOrCreate]
    · simp [he]
  · by_cases he : m.serverHandledHistogramEnabled
    · exact Or.inr he
    · refine Or.inl ?_
      rw [preRegisterMethod_hist]
      simp [he]
  · exact preRegisterMethod_idem m s mi
  · intro L
    exact InitializeMetrics_idem m L


theorem EnableClientHandlingTimeHistogram_flagsOk (m : ClientMetrics) (opts : List HistogramOption)
    (h : m.histFlagsOk) : (m.EnableClientHandlingTimeHistogram opts).histFlagsOk := by
  obtain ⟨h1, h2, h3, h4, h5⟩ := h
  by_cases hold : m.clientHandledHistogramEnabled
  · refine ⟨?_, ?_, ?_, ?_, ?_⟩
    · intro _
      have hs := h1 hold
      simp [ClientMetrics.EnableClientHandlingTimeHistogram, hold, hs]
    · intro he
      simp only [ClientMetrics.EnableClientHandlingTimeHistogram, hold] at he ⊢ <;>
        simp at he ⊢ <;>
        exact h2 he
    · intro he
      simp only [ClientMetrics.EnableClientHandlingTimeHistogram, hold] at he ⊢ <;>
        simp at he ⊢ <;>
        exact h3 he
    · intro he
      simp only [ClientMetrics.EnableClientHandlingTimeHistogram, hold] at he ⊢ <;>
        simp at he ⊢ <;>
        exact h4 he
    · intro he
      simp only [ClientMetrics.EnableClientHandlingTimeHistogram, hold] at he ⊢ <;>
        simp at he ⊢ <;>
        exact h5 he
  · refine ⟨?_, ?_, ?_, ?_, ?_⟩
    · intro _
      simp [ClientMetrics.EnableClientHandlingTimeHistogram, hold]
    · intro he
      simp only [ClientMetrics.EnableClientHandlingTimeHistogram, hold] at he ⊢ <;>
        simp at he ⊢ <;>
        exact h2 he
    · intro he
      simp only [ClientMetrics.EnableClientHandlingTimeHistogram, hold] at he ⊢ <;>
        simp at he ⊢ <;>
        exact h3 he
    · intro he
      simp only [ClientMetrics.EnableClientHandlingTimeHistogram, hold] at he ⊢ <;>
        simp at he ⊢ <;>
        exact h4 he
    · intro he
      simp only [ClientMetrics.EnableClientHandlingTimeHistogram, hold] at he ⊢ <;>
        simp at he ⊢ <;>
        exact h5 he

theorem EnableClientStreamReceiveTimeHistogram_flagsOk (m : ClientMetrics) (opts : List HistogramOption)
    (h : m.histFlagsOk) : (m.EnableClientStreamReceiveTimeHistogram opts).histFlagsOk := by
  obtain ⟨h1, h2, h3, h4, h5⟩ := h
  by_cases hold : m.clientStreamRecvHistogramEnabled
  · refine ⟨?_, ?_, ?_, ?_, ?_⟩
    · intro he
      simp only [ClientMetrics.EnableClientStreamReceiveTimeHistogram, hold] at he ⊢ <;>
        simp at he ⊢ <;>
        exact h1 he
    · intro _
      have hs := h2 hold
      simp [ClientMetrics.EnableClientStreamReceiveTimeHistogram, hold, hs]
    · intro he
      simp only [ClientMetrics.EnableClientStreamReceiveTimeHistogram, hold] at he ⊢ <;>
        simp at he ⊢ <;>
        exact h3 he
    · intro he
      simp only [ClientMetrics.EnableClientStreamReceiveTimeHistogram, hold] at he ⊢ <;>
        simp at he ⊢ <;>
        exact h4 he
    · intro he
      simp only [ClientMetrics.EnableClientStreamReceiveTimeHistogram, hold] at he ⊢ <;>
        simp at he ⊢ <;>
        exact h5 he
  · refine ⟨?_, ?_, ?_, ?_, ?_⟩
    · intro he
      simp only [ClientMetrics.EnableClientStreamReceiveTimeHistogram, hold] at he ⊢ <;>
        simp at he ⊢ <;>
        exact h1 he
    · intro _
      simp [ClientMetrics.EnableClientStreamReceiveTimeHistogram, hold]
    · intro he
      simp only [ClientMetrics.EnableClientStreamReceiveTimeHistogram, hold] at he ⊢ <;>
        simp at he ⊢ <;>
        exact h3 he
    · intro he
      simp only [ClientMetrics.EnableClientStreamReceiveTimeHistogram, hold] at he ⊢ <;>
        simp at he ⊢ <;>
        exact h4 he
    · intro he
      simp only [ClientMetrics.EnableClientStreamReceiveTimeHistogram, hold] at he ⊢ <;>
        simp at he ⊢ <;>
        exact h5 he

theorem EnableClientStreamSendTimeHistogram_flagsOk (m : ClientMetrics) (opts : List HistogramOption)
    (h : m.histFlagsOk) : (m.EnableClientStreamSendTimeHistogram opts).histFlagsOk := by
  obtain ⟨h1, h2, h3, h4, h5⟩ := h
  by_cases hold : m.clientStreamSendHistogramEnabled
  · refine ⟨?_, ?_, ?_, ?_, ?_⟩
    · intro he
      simp only [ClientMetrics.EnableClientStreamSendTimeHistogram, hold] at he ⊢ <;>
        simp at he ⊢ <;>
        exact h1 he
    · intro he
      simp only [ClientMetrics.EnableClientStreamSendTimeHistogram, hold] at he ⊢ <;>
        simp at he ⊢ <;>
        exact h2 he
    · intro _
      have hs := h3 hold
      simp [ClientMetrics.EnableClientStreamSendTimeHistogram, hold, hs]
    · intro he
      simp only [ClientMetrics.EnableClientStreamSendTimeHistogram, hold] at he ⊢ <;>
        simp at he ⊢ <;>
        exact h4 he
    · intro he
      simp only [ClientMetrics.EnableClientStreamSendTimeHistogram, hold] at he ⊢ <;>
        simp at he ⊢ <;>
        exact h5 he
  · refine ⟨?_, ?_, ?_, ?_, ?_⟩
    · intro he
      simp only [ClientMetrics.EnableClientStreamSendTimeHistogram, hold] at he ⊢ <;>
        simp at he ⊢ <;>
        exact h1 he
    · intro he
      simp only [ClientMetrics.EnableClientStreamSendTimeHistogram, hold] at he ⊢ <;>
        simp at he ⊢ <;>
        exact h2 he
    · intro _
      simp [ClientMetrics.EnableClientStreamSendTimeHistogram, hold]
    · intro he
      simp only [ClientMetrics.EnableClientStreamSendTimeHistogram, hold] at he ⊢ <;>
        simp at he ⊢ <;>
        exact h4 he
    · intro he
      simp only [ClientMetrics.EnableClientStreamSendTimeHistogram, hold] at he ⊢ <;>
        simp at he ⊢ <;>
        exact h5 he

theorem EnableMsgSizeReceivedBytesHistogram_flagsOk (m : ClientMetrics) (opts : List HistogramOption)
    (h : m.histFlagsOk) : (m.EnableMsgSizeReceivedBytesHistogram opts).histFlagsOk := by
  obtain ⟨h1, h2, h3, h4, h5⟩ := h
  by_cases hold : m.clientMsgSizeReceivedHistogramEnabled
  · refine ⟨?_, ?_, ?_, ?_, ?_⟩
    · intro he
      simp only [ClientMetrics.EnableMsgSizeReceivedBytesHistogram, hold] at he ⊢ <;>
        simp at he ⊢ <;>
        exact h1 he
    · intro he
      simp only [ClientMetrics.EnableMsgSizeReceivedBytesHistogram, hold] at he ⊢ <;>
        simp at he ⊢ <;>
        exact h2 he
    · intro he
      simp only [ClientMetrics.EnableMsgSizeReceivedBytesHistogram, hold] at he ⊢ <;>
        simp at he ⊢ <;>
        exact h3 he
    · intro _
      have hs := h4 hold
      simp [ClientMetrics.EnableMsgSizeReceivedBytesHistogram, hold, hs]
    · intro he
      simp only [ClientMetrics.EnableMsgSizeReceivedBytesHistogram, hold] at he ⊢ <;>
        simp at he ⊢ <;>
        exact h5 he
  · refine ⟨?_, ?_, ?_, ?_, ?_⟩
    · intro he
      simp only [ClientMetrics.EnableMsgSizeReceivedBytesHistogram, hold] at he ⊢ <;>
        simp at he ⊢ <;>
        exact h1 he
    · intro he
      simp only [ClientMetrics.EnableMsgSizeReceivedBytesHistogram, hold] at he ⊢ <;>
        simp at he ⊢ <;>
        exact h2 he
    · intro he
      simp only [ClientMetrics.EnableMsgSizeReceivedBytesHistogram, hold] at he ⊢ <;>
        simp at he ⊢ <;>
        exact h3 he
    · intro _
      simp [ClientMetrics.EnableMsgSizeReceivedBytesHistogram, hold]
    · intro he
      simp only [ClientMetrics.EnableMsgSizeReceivedBytesHistogram, hold] at he ⊢ <;>
        simp at he ⊢ <;>
        exact h5 he

theorem EnableMsgSizeSentBytesHistogram_flagsOk (m : ClientMetrics) (opts : List HistogramOption)
    (h : m.histFlagsOk) : (m.EnableMsgSizeSentBytesHistogram opts).histFlagsOk := by
  obtain ⟨h1, h2, h3, h4, h5⟩ := h
  by_cases hold : m.clientMsgSizeSentHistogramEnabled
  · refine ⟨?_, ?_, ?_, ?_, ?_⟩
    · intro he
      simp only [ClientMetrics.EnableMsgSizeSentBytesHistogram, hold] at he ⊢ <;>
        simp at he ⊢ <;>
        exact h1 he
    · intro he
      simp only [ClientMetrics.EnableMsgSizeSentBytesHistogram, hold] at he ⊢ <;>
        simp at he ⊢ <;>
        exact h2 he
    · intro he
      simp only [ClientMetrics.EnableMsgSizeSentBytesHistogram, hold] at he ⊢ <;>
        simp at he ⊢ <;>
        exact h3 he
    · intro he
      simp only [ClientMetrics.EnableMsgSizeSentBytesHistogram, hold] at he ⊢ <;>
        simp at he ⊢ <;>
        exact h4 he
    · intro _
      have hs := h5 hold
      simp [ClientMetrics.EnableMsgSizeSentBytesHistogram, hold, hs]
  · refine ⟨?_, ?_, ?_, ?_, ?_⟩
    · intro he
      simp only [ClientMetrics.EnableMsgSizeSentBytesHistogram, hold] at he ⊢ <;>
        simp at he ⊢ <;>
        exact h1 he
    · intro he
      simp only [ClientMetrics.EnableMsgSizeSentBytesHistogram, hold] at he ⊢ <;>
        simp at he ⊢ <;>
        exact h2 he
    · intro he
      simp only [ClientMetrics.EnableMsgSizeSentBytesHistogram, hold] at he ⊢ <;>
        simp at he ⊢ <;>
        exact h3 he
    · intro he
      simp only [ClientMetrics.EnableMsgSizeSentBytesHistogram, hold] at he ⊢ <;>
        simp at he ⊢ <;>
        exact h4 he
    · intro _
      simp [ClientMetrics.EnableMsgSizeSentBytesHistogram, hold]

theorem EnableHandlingTimeHistogram_flagsOk (m : ServerMetrics)
    (opts : List HistogramOption) (h : m.histFlagsOk) :
    (m.EnableHandlingTimeHistogram opts).histFlagsOk := by
  by_cases hold : m.serverHandledHistogramEnabled
  · intro _
    have hs := h hold
    simp [ServerMetrics.EnableHandlingTimeHistogram, hold, hs]
  · intro _
    simp [ServerMetrics.EnableHandlingTimeHistogram, hold]

theorem serverHandled_histEnabled (r : serverReporter) (c : Code) (m : ServerMetrics) :
    (r.Handled c m).serverHandledHistogramEnabled = m.serverHandledHistogramEnabled :=
  (serverHandled_hist r c m).1

theorem serverHandled_histIsSome (r : serverReporter) (c : Code) (m : ServerMetrics) :
    (r.Handled c m).serverHandledHistogram.isSome = m.serverHandledHistogram.isSome :=
  (serverHandled_hist r c m).2

theorem unaryServer_histFields (m : ServerMetrics) (svc meth : String)
    (err : Option GoErr) :
    ((m.UnaryServerInterceptor svc meth () err).1).serverHandledHistogramEnabled
        = m.serverHandledHistogramEnabled
      ∧ ((m.UnaryServerInterceptor svc meth () err).1).serverHandledHistogram.isSome
        = m.serverHandledHistogram.isSome := by
  by_cases hn : err = none <;>
    constructor <;>
      simp [ServerMetrics.UnaryServerInterceptor, hn, serverReporter.SentMessage,
        serverReporter.ReceivedMessage, newServerReporter,
        serverHandled_histEnabled, serverHandled_histIsSome]

theorem serverHistFlagsOk_UnaryInterceptor (m : ServerMetrics) (svc meth : String)
    (err : Option GoErr) (h : m.histFlagsOk) :
    ((m.UnaryServerInterceptor svc meth () err).1).histFlagsOk := by
  intro he
  rw [(unaryServer_histFields m svc meth err).2]
  exact h ((unaryServer_histFields m svc meth err).1 ▸ he)

theorem serverHistFlagsOk_StreamInterceptor (m : ServerMetrics)
    (info : StreamServerInfo) (svc meth : String) (evs : List StreamEvent)
    (err : Option GoErr) (h : m.histFlagsOk) :
    ((m.StreamServerInterceptor info svc meth evs err).1).histFlagsOk :=
  serverHistFlagsOk_Handled _ _ _ (serverStream_histFlagsOk _ _ evs h)

theorem clientHistFlagsOk_UnaryInterceptor (m : ClientMetrics) (svc meth : String)
    (err : Option GoErr) (h : m.histFlagsOk) :
    ((m.UnaryClientInterceptor svc meth err).1).histFlagsOk := by
  cases err with
  | none => exact clientHistFlagsOk_Handled _ _ _ h
  | some ge => exact clientHistFlagsOk_Handled _ _ _ h

theorem clientHistFlagsOk_StreamRpc (m : ClientMetrics) (desc : StreamDesc)
    (svc meth : String) (streamerErr : Option GoErr) (evs : List StreamEvent)
    (h : m.histFlagsOk) :
    (runStreamClientRpc m desc svc meth streamerErr evs).histFlagsOk := by
  cases streamerErr with
  | none => exact clientHistFlagsOk_run _ _ evs h
  | some ge => exact clientHistFlagsOk_Handled _ _ _ h

/-- Claim C8: under the histogram flag invariant, Describe yields exactly
one descriptor per mandatory counter family plus one per enabled
histogram, omitting disabled histograms, and Collect traverses exactly
the same families as Describe (the collected families' descriptors are
the described ones), for both registries. -/
theorem claim_C8 :
    (∀ m : ServerMetrics, m.histFlagsOk →
      m.Describe = some (m.serverStartedCounter.describe
          ++ m.serverHandledCounter.describe
          ++ m.serverStreamMsgReceived.describe
          ++ m.serverStreamMsgSent.describe
          ++ histDescList m.serverHandledHistogramEnabled m.serverHandledHistogram)
      ∧ Option.map (List.map MetricFamily.desc) m.Collect = m.Describe)
    ∧ (∀ m : ClientMetrics, m.histFlagsOk →
      m.Describe = some (m.clientStartedCounter.describe
          ++ m.clientHandledCounter.describe
          ++ m.clientStreamMsgReceived.describe
          ++ m.clientStreamMsgSent.describe
          ++ histDescList m.clientHandledHistogramEnabled m.clientHandledHistogram
          ++ histDescList m.clientStreamRecvHistogramEnabled m.clientStreamRecvHistogram
          ++ histDescList m.clientStreamSendHistogramEnabled m.clientStreamSendHistogram
          ++ histDescList m.clientMsgSizeReceivedHistogramEnabled m.clientMsgSizeReceivedHistogram
          ++ histDescList m.clientMsgSizeSentHistogramEnabled m.clientMsgSizeSentHistogram)
      ∧ Option.map (List.map MetricFamily.desc) m.Collect = m.Describe) := by
  constructor
  · intro m h
    refine ⟨serverDescribe_of_ok m h, ?_⟩
    rw [serverCollect_of_ok m h, serverDescribe_of_ok m h]
    simp [List.map_append, histFamList_desc, CounterVec.collect, CounterVec.describe]
  · intro m h
    refine ⟨clientDescribe_of_ok m h, ?_⟩
    rw [clientCollect_of_ok m h, clientDescribe_of_ok m h]
    simp [List.map_append, histFamList_desc, CounterVec.collect, CounterVec.describe]

/-- Claim C8 (witness): the Describe/Collect characterization evaluated on
a server registry with the handling-time histogram enabled and on a
client registry with the send-time histogram enabled. -/
theorem claim_C8_witness :
    (ServerMetrics.Describe (NewServerMetrics.EnableHandlingTimeHistogram [])
      = some ((NewServerMetrics.EnableHandlingTimeHistogram []).serverStartedCounter.describe
          ++ (NewServerMetrics.EnableHandlingTimeHistogram []).serverHandledCounter.describe
          ++ (NewServerMetrics.EnableHandlingTimeHistogram []).serverStreamMsgReceived.describe
          ++ (NewServerMetrics.EnableHandlingTimeHistogram []).serverStreamMsgSent.describe
          ++ histDescList (NewServerMetrics.EnableHandlingTimeHistogram []).serverHandledHistogramEnabled
              (NewServerMetrics.EnableHandlingTimeHistogram []).serverHandledHistogram))
    ∧ Option.map (List.map MetricFamily.desc)
        (ServerMetrics.Collect (NewServerMetrics.EnableHandlingTimeHistogram []))
      = ServerMetrics.Describe (NewServerMetrics.EnableHandlingTimeHistogram [])
    ∧ Option.map (List.map MetricFamily.desc)
        (ClientMetrics.Collect ((NewClientMetrics []).EnableClientStreamSendTimeHistogram []))
      = ClientMetrics.Describe ((NewClientMetrics []).EnableClientStreamSendTimeHistogram []) :=
  by
  refine ⟨?_, ?_, ?_⟩
  · exact (claim_C8.1 (NewServerMetrics.EnableHandlingTimeHistogram [])
      (fun _ => rfl)).1
  · exact (claim_C8.1 (NewServerMetrics.EnableHandlingTimeHistogram [])
      (fun _ => rfl)).2
  · refine (claim_C8.2 ((NewClientMetrics []).EnableClientStreamSendTimeHistogram []) ?_).2
    unfold ClientMetrics.histFlagsOk
    refine ⟨?_, ?_, ?_, ?_, ?_⟩
    · exact fun h => nomatch h
    · exact fun h => nomatch h
    · exact fun _ => rfl
    · exact fun h => nomatch h
    · exact fun h => nomatch h

/-- Claim C10: the histogram flag invariant — an enabled flag implies the
corresponding histogram vector is assigned — holds for freshly
constructed registries, is established/preserved by every Enable
operation and preserved by the interceptors, stream runs and
pre-registration, and under it Describe and Collect always return (they
never reach the nil histogram dereference). -/
theorem claim_C10 :
    ServerMetrics.histFlagsOk NewServerMetrics
    ∧ (∀ copts : List CounterOption, ClientMetrics.histFlagsOk (NewClientMetrics copts))
    ∧ (∀ (m : ServerMetrics) (opts : List HistogramOption), m.histFlagsOk →
        (m.EnableHandlingTimeHistogram opts).histFlagsOk)
    ∧ (∀ (m : ClientMetrics) (opts : List HistogramOption), m.histFlagsOk →
        (m.EnableClientHandlingTimeHistogram opts).histFlagsOk)
    ∧ (∀ (m : ClientMetrics) (opts : List HistogramOption), m.histFlagsOk →
        (m.EnableClientStreamReceiveTimeHistogram opts).histFlagsOk)
    ∧ (∀ (m : ClientMetrics) (opts : List HistogramOption), m.histFlagsOk →
        (m.EnableClientStreamSendTimeHistogram opts).histFlagsOk)
    ∧ (∀ (m : ClientMetrics) (opts : List HistogramOption), m.histFlagsOk →
        (m.EnableMsgSizeReceivedBytesHistogram opts).histFlagsOk)
    ∧ (∀ (m : ClientMetrics) (opts : List HistogramOption), m.histFlagsOk →
        (m.EnableMsgSizeSentBytesHistogram opts).histFlagsOk)
    ∧ (∀ (m : ServerMetrics) (svc meth : String) (err : Option GoErr), m.histFlagsOk →
        ((m.UnaryServerInterceptor svc meth () err).1).histFlagsOk)
    ∧ (∀ (m : ServerMetrics) (info : StreamServerInfo) (svc meth : String)
        (evs : List StreamEvent) (err : Option GoErr), m.histFlagsOk →
        ((m.StreamServerInterceptor info svc meth evs err).1).histFlagsOk)
    ∧ (∀ (m : ServerMetrics) (s : String) (mi : MethodInfo), m.histFlagsOk →
        (preRegisterMethod m s mi).histFlagsOk)
    ∧ (∀ (m : ServerMetrics) (L : ServiceInfoMap), m.histFlagsOk →
        (m.InitializeMetrics L).histFlagsOk)
    ∧ (∀ (m : ClientMetrics) (svc meth : String) (err : Option GoErr), m.histFlagsOk →
        ((m.UnaryClientInterceptor svc meth err).1).histFlagsOk)
    ∧ (∀ (m : ClientMetrics) (desc : StreamDesc) (svc meth : String)
        (streamerErr : Option GoErr) (evs : List StreamEvent), m.histFlagsOk →
        (runStreamClientRpc m desc svc meth streamerErr evs).histFlagsOk)
    ∧ (∀ m : ServerMetrics, m.histFlagsOk →
        m.Describe.isSome = true ∧ m.Collect.isSome = true)
    ∧ (∀ m : ClientMetrics, m.histFlagsOk →
        m.Describe.isSome = true ∧ m.Collect.isSome = true) := by
  refine ⟨?_, ?_, ?_, ?_, ?_, ?_, ?_, ?_, ?_, ?_, ?_, ?_, ?_, ?_, ?_, ?_⟩
  · exact fun h => nomatch h
  · intro copts
    refine ⟨?_, ?_, ?_, ?_, ?_⟩ <;> exact fun h => nomatch h
  · exact fun m opts h => EnableHandlingTimeHistogram_flagsOk m opts h
  · exact fun m opts h => EnableClientHandlingTimeHistogram_flagsOk m opts h
  · exact fun m opts h => EnableClientStreamReceiveTimeHistogram_flagsOk m opts h
  · exact fun m opts h => EnableClientStreamSendTimeHistogram_flagsOk m opts h
  · exact fun m opts h => EnableMsgSizeReceivedBytesHistogram_flagsOk m opts h
  · exact fun m opts h => EnableMsgSizeSentBytesHistogram_flagsOk m opts h
  · exact fun m svc meth err h => serverHistFlagsOk_UnaryInterceptor m svc meth err h
  · exact fun m info svc meth evs err h =>
      serverHistFlagsOk_StreamInterceptor m info svc meth evs err h
  · exact fun m s mi h => preRegisterMethod_histFlagsOk m s mi h
  · exact fun m L h => InitializeMetrics_histFlagsOk m L h
  · exact fun m svc meth err h => clientHistFlagsOk_UnaryInterceptor m svc meth err h
  · exact fun m desc svc meth streamerErr evs h =>
      clientHistFlagsOk_StreamRpc m desc svc meth streamerErr evs h
  · intro m h
    refine ⟨?_, ?_⟩
    · rw [serverDescribe_of_ok m h]
      rfl
    · rw [serverCollect_of_ok m h]
      rfl
  · intro m h
    refine ⟨?_, ?_⟩
    · rw [clientDescribe_of_ok m h]
      rfl
    · rw [clientCollect_of_ok m h]
      rfl

/-- Claim C10 (witness): the invariant facts evaluated on concrete
registries — a fresh client registry stays safe after enabling the
handling-time histogram, and Describe/Collect return on registries with
an enabled histogram. -/
theorem claim_C10_witness :
    ClientMetrics.histFlagsOk ((NewClientMetrics []).EnableClientHandlingTimeHistogram [])
    ∧ (ServerMetrics.Describe (NewServerMetrics.EnableHandlingTimeHistogram [])).isSome = true
    ∧ (ClientMetrics.Collect ((NewClientMetrics []).EnableMsgSizeSentBytesHistogram [])).isSome = true := by
  refine ⟨?_, ?_, ?_⟩
  · exact claim_C10.2.2.2.1 (NewClientMetrics []) [] (claim_C10.2.1 [])
  · exact (claim_C10.2.2.2.2.2.2.2.2.2.2.2.2.2.2.1
      (NewServerMetrics.EnableHandlingTimeHistogram [])
      (claim_C10.2.2.1 NewServerMetrics [] claim_C10.1)).1
  · refine (claim_C10.2.2.2.2.2.2.2.2.2.2.2.2.2.2.2
      ((NewClientMetrics []).EnableMsgSizeSentBytesHistogram [])
      (claim_C10.2.2.2.2.2.2.2.1 (NewClientMetrics []) [] (claim_C10.2.1 []))).2
